import Mathlib

/-! Progressive income tax engine (`main.go`)

A shallow embedding of the tax computation core of `main.go`: the bracket
liability calculator (`calculateTotalTax`, `calculateTaxBrackets`,
`calculateIncomeTaxDetailed`), the allowance loop and withholding netting of
the handler `PostTaxCalculation`, the record loop of `TaxCalculationsCSVHandler`,
the setters `SetPersonalDeduction` and `SetKReceiptDeduction`, and the
process-wide `config`.

Go `float64` amounts are modelled as exact rationals `ℚ`: unless a statement says
otherwise it is about the arithmetic the code writes down, not about binary
rounding, NaN or infinities.  The decimal constants `0.35`, `0.2`, `0.15`, `0.1`
are the exact rationals 35/100, 2/10, 15/100, 1/10.  Where rounding decides a
property, the liability calculator and the netting are run a second time in
binary64 (`calculateTotalTax64`, `calculateTaxBrackets64`, `netWithholding64`).  Mutable locals (`income`, `tax`, the
bracket slice, `totalDeductions`) are threaded explicitly; an early `return` of
an HTTP 400 from the handler is an `Except.error`.
-/

namespace TaxEngine

/-! ## Data model -/

/-- Go `type TaxBracket struct { Level string; Tax float64 }`. -/
structure TaxBracket where
  Level : String
  Tax : ℚ
  deriving DecidableEq, Repr

/-- Go `type Allowance struct { AllowanceType string; Amount float64 }`. -/
structure Allowance where
  AllowanceType : String
  Amount : ℚ
  deriving DecidableEq, Repr

/-- Go `type TaxRequest struct { TotalIncome, WHT float64; Allowances []Allowance }`. -/
structure TaxRequest where
  TotalIncome : ℚ
  WHT : ℚ
  Allowances : List Allowance
  deriving DecidableEq, Repr

/-- Go `type TaxResponse struct { Tax float64; TaxLevels []TaxBracket }`. -/
structure TaxResponse where
  Tax : ℚ
  TaxLevels : List TaxBracket
  deriving DecidableEq, Repr

/-- Go `type Config struct` with its five `float64` fields. -/
structure Config where
  PersonalDeductionDefault : ℚ
  PersonalDeductionMax : ℚ
  DonationMax : ℚ
  KReceiptDefault : ℚ
  KReceiptMax : ℚ
  deriving DecidableEq, Repr

/-- The initial value of the package variable `config` (main.go lines 76-82). -/
def config : Config :=
  { PersonalDeductionDefault := 60000
    PersonalDeductionMax := 100000
    DonationMax := 100000
    KReceiptDefault := 50000
    KReceiptMax := 100000 }

/-- The three ways `PostTaxCalculation` answers HTTP 400 after a successful bind.
`personalOutOfRange` carries the maximum that the Go message prints. -/
inductive TaxError where
  | negativeDeduction
  | personalOutOfRange (max : ℚ)
  | invalidWHT
  deriving DecidableEq, Repr

/-! ## Liability calculator -/

/-- Go `calculateTotalTax` (main.go lines 84-104).  Each `if` both adds to `tax`
and lowers the local `income`; the pair `(tax, income)` is threaded through. -/
def calculateTotalTax (income : ℚ) : ℚ :=
  let tax : ℚ := 0
  let s1 : ℚ × ℚ :=
    if income > 2000000 then (tax + (income - 2000000) * 0.35, 2000000) else (tax, income)
  let s2 : ℚ × ℚ :=
    if s1.2 > 1000000 then (s1.1 + (s1.2 - 1000000) * 0.2, 1000000) else s1
  let s3 : ℚ × ℚ :=
    if s2.2 > 500000 then (s2.1 + (s2.2 - 500000) * 0.15, 500000) else s2
  let s4 : ℚ × ℚ :=
    if s3.2 > 150000 then (s3.1 + (s3.2 - 150000) * 0.1, s3.2) else s3
  s4.1

/-- The assignment `taxBrackets[i].Tax = v` on a slice. -/
def setTax : List TaxBracket → Nat → ℚ → List TaxBracket
  | [], _, _ => []
  | b :: bs, 0, v => { b with Tax := v } :: bs
  | b :: bs, i + 1, v => b :: setTax bs i v

/-- The slice literal that `calculateTaxBrackets` starts from (main.go lines 107-113). -/
def initialBrackets : List TaxBracket :=
  [ ⟨"0-150,000", 0⟩,
    ⟨"150,001-500,000", 0⟩,
    ⟨"500,001-1,000,000", 0⟩,
    ⟨"1,000,001-2,000,000", 0⟩,
    ⟨"2,000,001 ขึ้นไป", 0⟩ ]

/-- Go `calculateTaxBrackets` (main.go lines 106-132).  The pair threaded through
is `(taxBrackets, income)`. -/
def calculateTaxBrackets (income : ℚ) : List TaxBracket :=
  let taxBrackets := initialBrackets
  let s1 : List TaxBracket × ℚ :=
    if income > 2000000 then (setTax taxBrackets 4 ((income - 2000000) * 0.35), 2000000)
    else (taxBrackets, income)
  let s2 : List TaxBracket × ℚ :=
    if s1.2 > 1000000 then (setTax s1.1 3 ((s1.2 - 1000000) * 0.2), 1000000) else s1
  let s3 : List TaxBracket × ℚ :=
    if s2.2 > 500000 then (setTax s2.1 2 ((s2.2 - 500000) * 0.15), 500000) else s2
  let s4 : List TaxBracket × ℚ :=
    if s3.2 > 150000 then (setTax s3.1 1 ((s3.2 - 150000) * 0.1), s3.2) else s3
  s4.1

/-- Go `calculateIncomeTaxDetailed` (main.go lines 134-138). -/
def calculateIncomeTaxDetailed (income : ℚ) : ℚ × List TaxBracket :=
  let tax := calculateTotalTax income
  let taxBrackets := calculateTaxBrackets income
  (tax, taxBrackets)

/-! ## Allowance loop of `PostTaxCalculation` -/

/-- One iteration of the loop `for _, allowance := range req.Allowances`
(main.go lines 147-166): the negative check, the `switch` on the type which may
reject or overwrite the local copy's `Amount`, then `totalDeductions += Amount`. -/
def allowanceStep (cfg : Config) (totalDeductions : ℚ) (allowance : Allowance) :
    Except TaxError ℚ :=
  if allowance.Amount < 0 then
    .error .negativeDeduction
  else if allowance.AllowanceType = "personal" then
    if allowance.Amount > cfg.PersonalDeductionMax ∨ allowance.Amount < 10000 then
      .error (.personalOutOfRange cfg.PersonalDeductionMax)
    else
      .ok (totalDeductions + allowance.Amount)
  else if allowance.AllowanceType = "donation" then
    let amount := if allowance.Amount > cfg.DonationMax then cfg.DonationMax else allowance.Amount
    .ok (totalDeductions + amount)
  else if allowance.AllowanceType = "k-receipt" then
    let amount :=
      if allowance.Amount > cfg.KReceiptMax ∧ allowance.Amount > 0 then cfg.KReceiptDefault
      else allowance.Amount
    .ok (totalDeductions + amount)
  else
    .ok (totalDeductions + allowance.Amount)

/-- The allowance loop from a given accumulator; the first rejected declaration
returns from the handler. -/
def allowanceLoop (cfg : Config) : ℚ → List Allowance → Except TaxError ℚ
  | totalDeductions, [] => .ok totalDeductions
  | totalDeductions, allowance :: rest =>
    match allowanceStep cfg totalDeductions allowance with
    | .error e => .error e
    | .ok t => allowanceLoop cfg t rest

/-- Allowance resolution: main.go lines 146-166, the loop started at
`config.PersonalDeductionDefault`. -/
def resolveDeductions (cfg : Config) (allowances : List Allowance) : Except TaxError ℚ :=
  allowanceLoop cfg cfg.PersonalDeductionDefault allowances

/-! ## Withholding netting of `PostTaxCalculation` -/

/-- Body of the loop at main.go lines 175-180 for one bracket:
`Tax -= req.WHT; if Tax < 0 { Tax = 0 }`. -/
def netBracket (wht : ℚ) (b : TaxBracket) : TaxBracket :=
  let t := b.Tax - wht
  { b with Tax := if t < 0 then 0 else t }

/-- Lines 174-181 of main.go: `tax -= req.WHT`, the per-bracket loop, and the
response built from both. -/
def netWithholding (tax : ℚ) (brackets : List TaxBracket) (wht : ℚ) : TaxResponse :=
  { Tax := tax - wht, TaxLevels := brackets.map (netBracket wht) }

/-- Go `PostTaxCalculation` (main.go lines 140-183) after a successful `c.Bind`,
as a function of the current `config` and the decoded request. -/
def PostTaxCalculation (cfg : Config) (req : TaxRequest) : Except TaxError TaxResponse :=
  match resolveDeductions cfg req.Allowances with
  | .error e => .error e
  | .ok totalDeductions =>
    if req.WHT < 0 ∨ req.WHT > req.TotalIncome then
      .error .invalidWHT
    else
      let taxableIncome := req.TotalIncome - totalDeductions
      let r := calculateIncomeTaxDetailed taxableIncome
      .ok (netWithholding r.1 r.2 req.WHT)

/-- Sum of the `Tax` fields of a bracket list. -/
def sumTax (bs : List TaxBracket) : ℚ :=
  (bs.map TaxBracket.Tax).sum

/-- The spec's `clamp(v, lo, hi) = min(max(v, lo), hi)`. -/
def clamp (v lo hi : ℚ) : ℚ :=
  min (max v lo) hi

/-- The declarations that the allowance loop rejects: a negative amount, or a
`personal` amount below 10000 or above `PersonalDeductionMax`. -/
def rejectedDeclaration (cfg : Config) (a : Allowance) : Prop :=
  a.Amount < 0 ∨
    (a.AllowanceType = "personal" ∧ (a.Amount < 10000 ∨ a.Amount > cfg.PersonalDeductionMax))

/-! ## Administrative setters -/

/-- The HTTP 400 answers of the two setters after a successful bind. -/
inductive ConfigError where
  | personalOutOfRange
  | kReceiptOutOfRange
  deriving DecidableEq, Repr

/-- Go `SetPersonalDeduction` (main.go lines 185-200) after a successful `c.Bind`:
the value of the package variable `config` after the call, and the response
(the accepted amount echoed back, or the 400). -/
def SetPersonalDeduction (cfg : Config) (amount : ℚ) : Config × Except ConfigError ℚ :=
  if amount < 10000 ∨ amount > cfg.PersonalDeductionMax then
    (cfg, .error .personalOutOfRange)
  else
    ({ cfg with PersonalDeductionDefault := amount }, .ok amount)

/-- Go `SetKReceiptDeduction` (main.go lines 202-217) after a successful `c.Bind`. -/
def SetKReceiptDeduction (cfg : Config) (amount : ℚ) : Config × Except ConfigError ℚ :=
  if amount < 0 ∨ amount > cfg.KReceiptMax then
    (cfg, .error .kReceiptOutOfRange)
  else
    ({ cfg with KReceiptDefault := amount }, .ok amount)

/-- One call of an administrative setter with its decoded amount. -/
inductive AdminCall where
  | setPersonal (amount : ℚ)
  | setKReceipt (amount : ℚ)
  deriving DecidableEq, Repr

/-- The `config` left behind by one administrative call. -/
def applyCall (cfg : Config) : AdminCall → Config
  | .setPersonal amount => (SetPersonalDeduction cfg amount).1
  | .setKReceipt amount => (SetKReceiptDeduction cfg amount).1

/-- The `config` after a sequence of administrative calls; the setters are the only
writers of `config` in main.go, so the reachable configurations are
`runCalls config calls`. -/
def runCalls (cfg : Config) (calls : List AdminCall) : Config :=
  calls.foldl applyCall cfg

/-- Well-formedness of a configuration: both defaults lie in their ranges and the
three maxima have their initial value. -/
def WellFormed (cfg : Config) : Prop :=
  10000 ≤ cfg.PersonalDeductionDefault ∧ cfg.PersonalDeductionDefault ≤ cfg.PersonalDeductionMax
    ∧ 0 ≤ cfg.KReceiptDefault ∧ cfg.KReceiptDefault ≤ cfg.KReceiptMax
    ∧ cfg.PersonalDeductionMax = 100000 ∧ cfg.DonationMax = 100000 ∧ cfg.KReceiptMax = 100000

/-! ## Record loop of `TaxCalculationsCSVHandler` -/

/-- Go `type TotalIncomeCsv struct { TotalIncome, WHT, Donation float64 }`. -/
structure TotalIncomeCsv where
  TotalIncome : ℚ
  WHT : ℚ
  Donation : ℚ
  deriving DecidableEq, Repr

/-- Go `type TaxDetail struct { TotalIncome, Tax, TaxRefund float64 }`. -/
structure TaxDetail where
  TotalIncome : ℚ
  Tax : ℚ
  TaxRefund : ℚ
  deriving DecidableEq, Repr

/-- Body of the loop `for _, record := range records` (main.go lines 263-277): the
detail appended for one record.  The pair threaded through the `if` is
`(taxRefund, netTax)`. -/
def taxDetailOf (cfg : Config) (record : TotalIncomeCsv) : TaxDetail :=
  let taxableIncome :=
    record.TotalIncome - cfg.PersonalDeductionDefault - record.Donation - record.WHT
  let tax := (calculateIncomeTaxDetailed taxableIncome).1
  let netTax := tax - record.WHT
  let taxRefund : ℚ := 0
  let s : ℚ × ℚ := if netTax < 0 then (-netTax, 0) else (taxRefund, netTax)
  { TotalIncome := record.TotalIncome, Tax := s.2, TaxRefund := s.1 }

/-- The record loop with its accumulator `taxDetails`, one `append` per record. -/
def taxDetailsLoop (cfg : Config) : List TaxDetail → List TotalIncomeCsv → List TaxDetail
  | taxDetails, [] => taxDetails
  | taxDetails, record :: rest =>
    taxDetailsLoop cfg (taxDetails ++ [taxDetailOf cfg record]) rest

/-- Go `TaxCalculationsCSVHandler` (main.go lines 261-284) after the file has been
read into `records`: the `Taxes` list of the response. -/
def TaxCalculationsCSVHandler (cfg : Config) (records : List TotalIncomeCsv) : List TaxDetail :=
  taxDetailsLoop cfg [] records

/-! ## The k-receipt rule without its `amount > 0` conjunct -/

/-- The loop iteration `allowanceStep` with the k-receipt condition
`amount > KReceiptMax && amount > 0` replaced by `amount > KReceiptMax` alone;
everything else is as in `allowanceStep`. -/
def allowanceStepMaxOnly (cfg : Config) (totalDeductions : ℚ) (allowance : Allowance) :
    Except TaxError ℚ :=
  if allowance.Amount < 0 then
    .error .negativeDeduction
  else if allowance.AllowanceType = "personal" then
    if allowance.Amount > cfg.PersonalDeductionMax ∨ allowance.Amount < 10000 then
      .error (.personalOutOfRange cfg.PersonalDeductionMax)
    else
      .ok (totalDeductions + allowance.Amount)
  else if allowance.AllowanceType = "donation" then
    let amount := if allowance.Amount > cfg.DonationMax then cfg.DonationMax else allowance.Amount
    .ok (totalDeductions + amount)
  else if allowance.AllowanceType = "k-receipt" then
    let amount :=
      if allowance.Amount > cfg.KReceiptMax then cfg.KReceiptDefault else allowance.Amount
    .ok (totalDeductions + amount)
  else
    .ok (totalDeductions + allowance.Amount)

/-- The allowance loop run with `allowanceStepMaxOnly`. -/
def allowanceLoopMaxOnly (cfg : Config) : ℚ → List Allowance → Except TaxError ℚ
  | totalDeductions, [] => .ok totalDeductions
  | totalDeductions, allowance :: rest =>
    match allowanceStepMaxOnly cfg totalDeductions allowance with
    | .error e => .error e
    | .ok t => allowanceLoopMaxOnly cfg t rest

/-- Allowance resolution run with `allowanceStepMaxOnly`. -/
def resolveDeductionsMaxOnly (cfg : Config) (allowances : List Allowance) :
    Except TaxError ℚ :=
  allowanceLoopMaxOnly cfg cfg.PersonalDeductionDefault allowances

/-- Number of brackets of a list whose tax is nonzero. -/
def nonzeroBrackets (bs : List TaxBracket) : Nat :=
  bs.countP (fun b => decide (b.Tax ≠ 0))

/-! ## Binary64 evaluation of the liability calculator and the netting

The definitions above compute over exact rationals.  The ones below run the same
Go statements with every `float64` operation rounded to binary64 (round to
nearest, ties to even), each operation rounded on its own, no fused multiply-add.
A binary64 value is represented by the rational it denotes.  The exponent range is
not modelled (no overflow, no subnormals); every value met below is far inside the
normal range. -/

/-- Nearest integer to the positive rational `n / d`, ties to the even integer. -/
def roundHalfEven (n d : Nat) : Nat :=
  let q := n / d
  let r := n % d
  if 2 * r < d then q
  else if d < 2 * r then q + 1
  else if q % 2 = 0 then q else q + 1

/-- Scale `n / d` by powers of two until `2^52 ≤ n / d < 2^53`: the result
`(n1, d1, e)` satisfies `n / d = (n1 / d1) * 2^e`.  The first argument bounds the
number of doublings. -/
def normalize53 : Nat → Nat → Nat → Int → Nat × Nat × Int
  | 0, n, d, e => (n, d, e)
  | fuel + 1, n, d, e =>
    if n < 2 ^ 52 * d then normalize53 fuel (2 * n) d (e - 1)
    else if 2 ^ 53 * d ≤ n then normalize53 fuel n (2 * d) (e + 1)
    else (n, d, e)

/-- The binary64 value nearest to the rational `q` (53 significant bits, round to
nearest, ties to even). -/
def round64 (q : ℚ) : ℚ :=
  if q.num = 0 then 0
  else
    let s := normalize53 2200 q.num.natAbs q.den 0
    let m := roundHalfEven s.1 s.2.1
    let v : ℚ :=
      if 0 ≤ s.2.2 then ((m * 2 ^ s.2.2.toNat : Nat) : ℚ) else mkRat m (2 ^ (-s.2.2).toNat)
    if q.num < 0 then -v else v

/-- Go `a + b` on `float64`. -/
def add64 (a b : ℚ) : ℚ := round64 (a + b)

/-- Go `a - b` on `float64`. -/
def sub64 (a b : ℚ) : ℚ := round64 (a - b)

/-- Go `a * b` on `float64`. -/
def mul64 (a b : ℚ) : ℚ := round64 (a * b)

/-- Go `calculateTotalTax` (main.go lines 84-104) in binary64: the constants `0.35`,
`0.2`, `0.15`, `0.1` are the binary64 values nearest to them, and `tax += d * r` is
a rounded product followed by a rounded sum. -/
def calculateTotalTax64 (income : ℚ) : ℚ :=
  let tax : ℚ := 0
  let s1 : ℚ × ℚ :=
    if income > 2000000 then
      (add64 tax (mul64 (sub64 income 2000000) (round64 0.35)), 2000000)
    else (tax, income)
  let s2 : ℚ × ℚ :=
    if s1.2 > 1000000 then (add64 s1.1 (mul64 (sub64 s1.2 1000000) (round64 0.2)), 1000000)
    else s1
  let s3 : ℚ × ℚ :=
    if s2.2 > 500000 then (add64 s2.1 (mul64 (sub64 s2.2 500000) (round64 0.15)), 500000)
    else s2
  let s4 : ℚ × ℚ :=
    if s3.2 > 150000 then (add64 s3.1 (mul64 (sub64 s3.2 150000) (round64 0.1)), s3.2) else s3
  s4.1

/-- Go `calculateTaxBrackets` (main.go lines 106-132) in binary64. -/
def calculateTaxBrackets64 (income : ℚ) : List TaxBracket :=
  let taxBrackets := initialBrackets
  let s1 : List TaxBracket × ℚ :=
    if income > 2000000 then
      (setTax taxBrackets 4 (mul64 (sub64 income 2000000) (round64 0.35)), 2000000)
    else (taxBrackets, income)
  let s2 : List TaxBracket × ℚ :=
    if s1.2 > 1000000 then (setTax s1.1 3 (mul64 (sub64 s1.2 1000000) (round64 0.2)), 1000000)
    else s1
  let s3 : List TaxBracket × ℚ :=
    if s2.2 > 500000 then (setTax s2.1 2 (mul64 (sub64 s2.2 500000) (round64 0.15)), 500000)
    else s2
  let s4 : List TaxBracket × ℚ :=
    if s3.2 > 150000 then (setTax s3.1 1 (mul64 (sub64 s3.2 150000) (round64 0.1)), s3.2)
    else s3
  s4.1

/-- Body of the loop at main.go lines 175-180 in binary64. -/
def netBracket64 (wht : ℚ) (b : TaxBracket) : TaxBracket :=
  let t := sub64 b.Tax wht
  { b with Tax := if t < 0 then 0 else t }

/-- Lines 174-181 of main.go in binary64. -/
def netWithholding64 (tax : ℚ) (brackets : List TaxBracket) (wht : ℚ) : TaxResponse :=
  { Tax := sub64 tax wht, TaxLevels := brackets.map (netBracket64 wht) }

/-- The bracket taxes added up left to right in binary64, the way a client of the
response would add them (main.go itself never sums the brackets). -/
def sumTax64 (bs : List TaxBracket) : ℚ :=
  bs.foldl (fun acc b => add64 acc b.Tax) 0

/-! ## Auxiliary lemmas: the five income bands -/

theorem clamp_low {v hi : ℚ} (hv : v ≤ 0) (hh : 0 ≤ hi) : clamp v 0 hi = 0 := by
  unfold clamp
  rw [max_eq_right hv, min_eq_left hh]

theorem clamp_mid {v hi : ℚ} (hv : 0 ≤ v) (hh : v ≤ hi) : clamp v 0 hi = v := by
  unfold clamp
  rw [max_eq_left hv, min_eq_left hh]

theorem clamp_high {v hi : ℚ} (hv : hi ≤ v) (hh : 0 ≤ hi) : clamp v 0 hi = hi := by
  unfold clamp
  rw [max_eq_left (le_trans hh hv), min_eq_right hv]

theorem income_cases (x : ℚ) :
    x ≤ 150000 ∨ (150000 < x ∧ x ≤ 500000) ∨ (500000 < x ∧ x ≤ 1000000)
      ∨ (1000000 < x ∧ x ≤ 2000000) ∨ 2000000 < x := by
  by_cases h1 : x ≤ 150000
  · exact Or.inl h1
  by_cases h2 : x ≤ 500000
  · exact Or.inr (Or.inl ⟨lt_of_not_le h1, h2⟩)
  by_cases h3 : x ≤ 1000000
  · exact Or.inr (Or.inr (Or.inl ⟨lt_of_not_le h2, h3⟩))
  by_cases h4 : x ≤ 2000000
  · exact Or.inr (Or.inr (Or.inr (Or.inl ⟨lt_of_not_le h3, h4⟩)))
  · exact Or.inr (Or.inr (Or.inr (Or.inr (lt_of_not_le h4))))

theorem total_band0 {x : ℚ} (h : x ≤ 150000) : calculateTotalTax x = 0 := by
  have a1 : ¬ x > 2000000 := by intro c; linarith
  have a2 : ¬ x > 1000000 := by intro c; linarith
  have a3 : ¬ x > 500000 := by intro c; linarith
  have a4 : ¬ x > 150000 := by intro c; linarith
  simp [calculateTotalTax, a1, a2, a3, a4]

theorem total_band1 {x : ℚ} (h : 150000 < x) (h2 : x ≤ 500000) :
    calculateTotalTax x = (x - 150000) * 0.1 := by
  have a1 : ¬ x > 2000000 := by intro c; linarith
  have a2 : ¬ x > 1000000 := by intro c; linarith
  have a3 : ¬ x > 500000 := by intro c; linarith
  simp [calculateTotalTax, a1, a2, a3, h]

theorem total_band2 {x : ℚ} (h : 500000 < x) (h2 : x ≤ 1000000) :
    calculateTotalTax x = (x - 500000) * 0.15 + 35000 := by
  have a1 : ¬ x > 2000000 := by intro c; linarith
  have a2 : ¬ x > 1000000 := by intro c; linarith
  simp [calculateTotalTax, a1, a2, h]
  norm_num

theorem total_band3 {x : ℚ} (h : 1000000 < x) (h2 : x ≤ 2000000) :
    calculateTotalTax x = (x - 1000000) * 0.2 + 110000 := by
  have a1 : ¬ x > 2000000 := by intro c; linarith
  simp [calculateTotalTax, a1, h]
  norm_num
  ring

theorem total_band4 {x : ℚ} (h : 2000000 < x) :
    calculateTotalTax x = (x - 2000000) * 0.35 + 310000 := by
  simp [calculateTotalTax, h]
  norm_num
  ring


theorem brackets_band0 {x : ℚ} (h : x ≤ 150000) :
    calculateTaxBrackets x = initialBrackets := by
  have a1 : ¬ x > 2000000 := by intro c; linarith
  have a2 : ¬ x > 1000000 := by intro c; linarith
  have a3 : ¬ x > 500000 := by intro c; linarith
  have a4 : ¬ x > 150000 := by intro c; linarith
  simp [calculateTaxBrackets, a1, a2, a3, a4]

theorem brackets_band1 {x : ℚ} (h : 150000 < x) (h2 : x ≤ 500000) :
    calculateTaxBrackets x =
      [ ⟨"0-150,000", 0⟩, ⟨"150,001-500,000", (x - 150000) * 0.1⟩,
        ⟨"500,001-1,000,000", 0⟩, ⟨"1,000,001-2,000,000", 0⟩, ⟨"2,000,001 ขึ้นไป", 0⟩ ] := by
  have a1 : ¬ x > 2000000 := by intro c; linarith
  have a2 : ¬ x > 1000000 := by intro c; linarith
  have a3 : ¬ x > 500000 := by intro c; linarith
  simp [calculateTaxBrackets, initialBrackets, setTax, a1, a2, a3, h]

theorem brackets_band2 {x : ℚ} (h : 500000 < x) (h2 : x ≤ 1000000) :
    calculateTaxBrackets x =
      [ ⟨"0-150,000", 0⟩, ⟨"150,001-500,000", 35000⟩,
        ⟨"500,001-1,000,000", (x - 500000) * 0.15⟩, ⟨"1,000,001-2,000,000", 0⟩,
        ⟨"2,000,001 ขึ้นไป", 0⟩ ] := by
  have a1 : ¬ x > 2000000 := by intro c; linarith
  have a2 : ¬ x > 1000000 := by intro c; linarith
  simp [calculateTaxBrackets, initialBrackets, setTax, a1, a2, h]
  norm_num

theorem brackets_band3 {x : ℚ} (h : 1000000 < x) (h2 : x ≤ 2000000) :
    calculateTaxBrackets x =
      [ ⟨"0-150,000", 0⟩, ⟨"150,001-500,000", 35000⟩,
        ⟨"500,001-1,000,000", 75000⟩, ⟨"1,000,001-2,000,000", (x - 1000000) * 0.2⟩,
        ⟨"2,000,001 ขึ้นไป", 0⟩ ] := by
  have a1 : ¬ x > 2000000 := by intro c; linarith
  simp [calculateTaxBrackets, initialBrackets, setTax, a1, h]
  norm_num

theorem brackets_band4 {x : ℚ} (h : 2000000 < x) :
    calculateTaxBrackets x =
      [ ⟨"0-150,000", 0⟩, ⟨"150,001-500,000", 35000⟩,
        ⟨"500,001-1,000,000", 75000⟩, ⟨"1,000,001-2,000,000", 200000⟩,
        ⟨"2,000,001 ขึ้นไป", (x - 2000000) * 0.35⟩ ] := by
  norm_num [calculateTaxBrackets, initialBrackets, setTax, h]

theorem calculateTaxBrackets_closed (x : ℚ) :
    calculateTaxBrackets x =
      [ ⟨"0-150,000", 0⟩,
        ⟨"150,001-500,000", 0.1 * clamp (x - 150000) 0 350000⟩,
        ⟨"500,001-1,000,000", 0.15 * clamp (x - 500000) 0 500000⟩,
        ⟨"1,000,001-2,000,000", 0.2 * clamp (x - 1000000) 0 1000000⟩,
        ⟨"2,000,001 ขึ้นไป", 0.35 * max 0 (x - 2000000)⟩ ] := by
  rcases income_cases x with h | ⟨h, h2⟩ | ⟨h, h2⟩ | ⟨h, h2⟩ | h
  · rw [brackets_band0 h, clamp_low (by linarith) (by norm_num),
      clamp_low (by linarith) (by norm_num), clamp_low (by linarith) (by norm_num),
      max_eq_left (by linarith)]
    norm_num [initialBrackets]
  · rw [brackets_band1 h h2, clamp_mid (by linarith) (by linarith),
      clamp_low (by linarith) (by norm_num), clamp_low (by linarith) (by norm_num),
      max_eq_left (by linarith)]
    norm_num
    ring
  · rw [brackets_band2 h h2, clamp_high (by linarith) (by norm_num),
      clamp_mid (by linarith) (by linarith), clamp_low (by linarith) (by norm_num),
      max_eq_left (by linarith)]
    norm_num
    ring
  · rw [brackets_band3 h h2, clamp_high (by linarith) (by norm_num),
      clamp_high (by linarith) (by norm_num), clamp_mid (by linarith) (by linarith),
      max_eq_left (by linarith)]
    norm_num
    ring
  · rw [brackets_band4 h, clamp_high (by linarith) (by norm_num),
      clamp_high (by linarith) (by norm_num), clamp_high (by linarith) (by norm_num),
      max_eq_right (by linarith)]
    norm_num
    ring

theorem calculateTotalTax_closed (x : ℚ) :
    calculateTotalTax x =
      0.1 * clamp (x - 150000) 0 350000 + 0.15 * clamp (x - 500000) 0 500000
        + 0.2 * clamp (x - 1000000) 0 1000000 + 0.35 * max 0 (x - 2000000) := by
  rcases income_cases x with h | ⟨h, h2⟩ | ⟨h, h2⟩ | ⟨h, h2⟩ | h
  · rw [total_band0 h, clamp_low (by linarith) (by norm_num),
      clamp_low (by linarith) (by norm_num), clamp_low (by linarith) (by norm_num),
      max_eq_left (by linarith)]
    norm_num
  · rw [total_band1 h h2, clamp_mid (by linarith) (by linarith),
      clamp_low (by linarith) (by norm_num), clamp_low (by linarith) (by norm_num),
      max_eq_left (by linarith)]
    norm_num
    ring
  · rw [total_band2 h h2, clamp_high (by linarith) (by norm_num),
      clamp_mid (by linarith) (by linarith), clamp_low (by linarith) (by norm_num),
      max_eq_left (by linarith)]
    norm_num
    ring
  · rw [total_band3 h h2, clamp_high (by linarith) (by norm_num),
      clamp_high (by linarith) (by norm_num), clamp_mid (by linarith) (by linarith),
      max_eq_left (by linarith)]
    norm_num
    ring
  · rw [total_band4 h, clamp_high (by linarith) (by norm_num),
      clamp_high (by linarith) (by norm_num), clamp_high (by linarith) (by norm_num),
      max_eq_right (by linarith)]
    norm_num
    ring

theorem clamp_mono {u v : ℚ} (lo hi : ℚ) (h : u ≤ v) : clamp u lo hi ≤ clamp v lo hi := by
  unfold clamp
  exact min_le_min (max_le_max h le_rfl) le_rfl


/-! ## Auxiliary lemmas: the allowance loop -/

theorem allowanceLoop_append (cfg : Config) (l : List Allowance) (a : Allowance) (t D : ℚ)
    (h : allowanceLoop cfg t l = .ok D) :
    allowanceLoop cfg t (l ++ [a]) = allowanceStep cfg D a := by
  induction l generalizing t with
  | nil =>
    simp only [allowanceLoop, Except.ok.injEq] at h
    subst h
    simp only [List.nil_append, allowanceLoop]
    cases allowanceStep cfg t a <;> rfl
  | cons b rest ih =>
    simp only [allowanceLoop, List.cons_append] at h ⊢
    cases hb : allowanceStep cfg t b with
    | error e => rw [hb] at h; cases h
    | ok u =>
      rw [hb] at h
      exact ih u h

theorem resolveDeductions_append (cfg : Config) (l : List Allowance) (a : Allowance) (D : ℚ)
    (h : resolveDeductions cfg l = .ok D) :
    resolveDeductions cfg (l ++ [a]) = allowanceStep cfg D a :=
  allowanceLoop_append cfg l a cfg.PersonalDeductionDefault D h

theorem allowanceStep_error_iff (cfg : Config) (t : ℚ) (a : Allowance) :
    (∃ e, allowanceStep cfg t a = .error e) ↔ rejectedDeclaration cfg a := by
  unfold allowanceStep rejectedDeclaration
  constructor
  · rintro ⟨e, he⟩
    split_ifs at he with h1 h2 h3 h4 h5
    · exact Or.inl h1
    · exact Or.inr ⟨h2, h3.symm⟩
  · rintro (h | ⟨h2, h3⟩)
    · exact ⟨_, by rw [if_pos h]⟩
    · by_cases h1 : a.Amount < 0
      · exact ⟨_, by rw [if_pos h1]⟩
      · exact ⟨_, by rw [if_neg h1, if_pos h2, if_pos h3.symm]⟩

theorem except_error_or_ok {ε α : Type} (r : Except ε α) :
    (∃ e, r = .error e) ∨ (∃ v, r = .ok v) := by
  cases r with
  | error e => exact Or.inl ⟨e, rfl⟩
  | ok v => exact Or.inr ⟨v, rfl⟩

theorem allowanceLoop_error_iff (cfg : Config) (l : List Allowance) (t : ℚ) :
    (∃ e, allowanceLoop cfg t l = .error e) ↔ ∃ a ∈ l, rejectedDeclaration cfg a := by
  induction l generalizing t with
  | nil => simp [allowanceLoop]
  | cons b rest ih =>
    simp only [allowanceLoop, List.mem_cons, exists_eq_or_imp]
    cases hb : allowanceStep cfg t b with
    | error e =>
      have : rejectedDeclaration cfg b := (allowanceStep_error_iff cfg t b).1 ⟨e, hb⟩
      simp [this]
    | ok u =>
      have : ¬ rejectedDeclaration cfg b := by
        intro c
        obtain ⟨e, he⟩ := (allowanceStep_error_iff cfg t b).2 c
        rw [hb] at he
        cases he
      simp only [this, false_or]
      exact ih u


theorem netBracket_nonneg (w : ℚ) (b : TaxBracket) : 0 ≤ (netBracket w b).Tax := by
  unfold netBracket
  simp only
  split_ifs with h
  · exact le_rfl
  · exact not_lt.mp h

theorem netBracket_tax (w : ℚ) (b : TaxBracket) :
    (netBracket w b).Tax = max 0 (b.Tax - w) := by
  unfold netBracket
  simp only
  split_ifs with h
  · exact (max_eq_left (le_of_lt h)).symm
  · exact (max_eq_right (not_lt.mp h)).symm

theorem netBracket_level (w : ℚ) (b : TaxBracket) : (netBracket w b).Level = b.Level := rfl

/-! ## Liability calculator: claims C1 to C4 -/

/-- C1 (as stated, refuted): the labels returned for taxable income 0 are not the
list ending in the label `2,000,001+`; the fifth label in the code is
`2,000,001 ขึ้นไป`. -/
theorem C1_label_counterexample :
    (calculateIncomeTaxDetailed 0).2.map TaxBracket.Level ≠
      ["0-150,000", "150,001-500,000", "500,001-1,000,000", "1,000,001-2,000,000",
        "2,000,001+"] := by
  rw [show (calculateIncomeTaxDetailed 0).2 = calculateTaxBrackets 0 from rfl,
    brackets_band0 (by norm_num)]
  decide

/-- C1 (amended): for every taxable income x, `calculateIncomeTaxDetailed x` returns
exactly five brackets, in ascending order, labelled 0-150,000 / 150,001-500,000 /
500,001-1,000,000 / 1,000,001-2,000,000 / 2,000,001 ขึ้นไป, with taxes 0,
0.10*clamp(x-150000,0,350000), 0.15*clamp(x-500000,0,500000),
0.20*clamp(x-1000000,0,1000000) and 0.35*max(0,x-2000000); x = 500000 gives total
35000, all of it in the second bracket, and x = 1000000 gives total 110000 as
35000 in the second bracket plus 75000 in the third. -/
theorem C1_bracket_breakdown :
    (∀ x : ℚ, (calculateIncomeTaxDetailed x).2 =
      [ ⟨"0-150,000", 0⟩,
        ⟨"150,001-500,000", 0.10 * clamp (x - 150000) 0 350000⟩,
        ⟨"500,001-1,000,000", 0.15 * clamp (x - 500000) 0 500000⟩,
        ⟨"1,000,001-2,000,000", 0.20 * clamp (x - 1000000) 0 1000000⟩,
        ⟨"2,000,001 ขึ้นไป", 0.35 * max 0 (x - 2000000)⟩ ])
    ∧ calculateIncomeTaxDetailed 500000 =
      (35000, [ ⟨"0-150,000", 0⟩, ⟨"150,001-500,000", 35000⟩, ⟨"500,001-1,000,000", 0⟩,
        ⟨"1,000,001-2,000,000", 0⟩, ⟨"2,000,001 ขึ้นไป", 0⟩ ])
    ∧ calculateIncomeTaxDetailed 1000000 =
      (110000, [ ⟨"0-150,000", 0⟩, ⟨"150,001-500,000", 35000⟩, ⟨"500,001-1,000,000", 75000⟩,
        ⟨"1,000,001-2,000,000", 0⟩, ⟨"2,000,001 ขึ้นไป", 0⟩ ]) := by
  refine ⟨fun x => ?_, ?_, ?_⟩
  · rw [show (calculateIncomeTaxDetailed x).2 = calculateTaxBrackets x from rfl,
      calculateTaxBrackets_closed x]
    norm_num
  · rw [show calculateIncomeTaxDetailed 500000 =
        (calculateTotalTax 500000, calculateTaxBrackets 500000) from rfl,
      total_band1 (by norm_num) (by norm_num), brackets_band1 (by norm_num) (by norm_num)]
    norm_num
  · rw [show calculateIncomeTaxDetailed 1000000 =
        (calculateTotalTax 1000000, calculateTaxBrackets 1000000) from rfl,
      total_band2 (by norm_num) (by norm_num), brackets_band2 (by norm_num) (by norm_num)]
    norm_num

/-- C2: for every taxable income x ≤ 150000, negative x included,
`calculateIncomeTaxDetailed x` returns (it is a total function) total tax 0 and a
list of five brackets each with tax 0. -/
theorem C2_untaxed_below_threshold (x : ℚ) (h : x ≤ 150000) :
    (calculateIncomeTaxDetailed x).1 = 0
      ∧ (calculateIncomeTaxDetailed x).2.length = 5
      ∧ ∀ b ∈ (calculateIncomeTaxDetailed x).2, b.Tax = 0 := by
  rw [show (calculateIncomeTaxDetailed x).1 = calculateTotalTax x from rfl,
    show (calculateIncomeTaxDetailed x).2 = calculateTaxBrackets x from rfl,
    total_band0 h, brackets_band0 h]
  refine ⟨rfl, rfl, ?_⟩
  intro b hb
  simp only [initialBrackets, List.mem_cons, List.mem_singleton, List.not_mem_nil, or_false] at hb
  rcases hb with rfl | rfl | rfl | rfl | rfl <;> rfl

/-- C2 witness: a negative taxable income, -5000. -/
theorem C2_untaxed_below_threshold_witness :
    (-5000 : ℚ) ≤ 150000
      ∧ (calculateIncomeTaxDetailed (-5000)).1 = 0
      ∧ (calculateIncomeTaxDetailed (-5000)).2.length = 5
      ∧ ∀ b ∈ (calculateIncomeTaxDetailed (-5000)).2, b.Tax = 0 :=
  ⟨by norm_num, C2_untaxed_below_threshold (-5000) (by norm_num)⟩

/-- C3 (amended): over exact rational arithmetic, for every taxable income x,
`calculateTotalTax x` equals the sum of the taxes of the brackets of
`calculateTaxBrackets x`, so the two components of `calculateIncomeTaxDetailed x`
agree exactly; the binary64 run can differ from the sum in the last bits. -/
theorem C3_total_eq_sum_of_brackets (x : ℚ) :
    calculateTotalTax x = sumTax (calculateTaxBrackets x)
      ∧ (calculateIncomeTaxDetailed x).1 = sumTax (calculateIncomeTaxDetailed x).2 := by
  have key : calculateTotalTax x = sumTax (calculateTaxBrackets x) := by
    rw [calculateTotalTax_closed, calculateTaxBrackets_closed]
    simp only [sumTax, List.map_cons, List.map_nil, List.sum_cons, List.sum_nil]
    ring
  exact ⟨key, key⟩

/-- C4: the total tax is monotone: x ≤ y implies
`calculateTotalTax x ≤ calculateTotalTax y`. -/
theorem C4_total_tax_monotone (x y : ℚ) (h : x ≤ y) :
    calculateTotalTax x ≤ calculateTotalTax y := by
  rw [calculateTotalTax_closed, calculateTotalTax_closed]
  have h1 := clamp_mono 0 350000 (sub_le_sub_right h 150000)
  have h2 := clamp_mono 0 500000 (sub_le_sub_right h 500000)
  have h3 := clamp_mono 0 1000000 (sub_le_sub_right h 1000000)
  have h4 : max 0 (x - 2000000) ≤ max 0 (y - 2000000) :=
    max_le_max le_rfl (sub_le_sub_right h 2000000)
  norm_num
  linarith

/-- C4 witness: incomes 400000 ≤ 600000 on either side of a threshold. -/
theorem C4_total_tax_monotone_witness :
    (400000 : ℚ) ≤ 600000 ∧ calculateTotalTax 400000 ≤ calculateTotalTax 600000 :=
  ⟨by norm_num, C4_total_tax_monotone 400000 600000 (by norm_num)⟩


/-! ## Withholding netting: claims C5 and C6 -/

/-- C5: withholding netting as done in `PostTaxCalculation`: for every total tax T,
bracket list and withholding w, the net total is T - w, the netted list has the
same length and the same labels in the same order, and its i-th tax is
max(0, tax_i - w); for T = 50000, brackets [{A,20000},{B,30000}] and w = 25000 the
net total is 25000 and the bracket taxes are [0, 5000]. -/
theorem C5_withholding_netting :
    (∀ (T w : ℚ) (bs : List TaxBracket),
      (netWithholding T bs w).Tax = T - w
        ∧ (netWithholding T bs w).TaxLevels.length = bs.length
        ∧ (netWithholding T bs w).TaxLevels.map TaxBracket.Level = bs.map TaxBracket.Level
        ∧ ∀ i : Nat, ((netWithholding T bs w).TaxLevels[i]?).map TaxBracket.Tax
            = (bs[i]?).map (fun b => max 0 (b.Tax - w)))
    ∧ netWithholding 50000 [⟨"A", 20000⟩, ⟨"B", 30000⟩] 25000
        = ⟨25000, [⟨"A", 0⟩, ⟨"B", 5000⟩]⟩ := by
  refine ⟨fun T w bs => ⟨rfl, ?_, ?_, fun i => ?_⟩, ?_⟩
  · simp [netWithholding]
  · simp only [netWithholding, List.map_map]
    exact List.map_congr_left (fun b _ => netBracket_level w b)
  · simp only [netWithholding, List.getElem?_map, Option.map_map]
    cases bs[i]? with
    | none => rfl
    | some b => simp [netBracket_tax]
  · norm_num [netWithholding, netBracket]

/-- C6: for every request that `PostTaxCalculation` accepts, every bracket of the
result has tax ≥ 0; the returned brackets are those of the taxable income with
each tax replaced by max(0, tax - WHT), so a negative difference is reported as 0. -/
theorem C6_netted_brackets_nonneg (cfg : Config) (req : TaxRequest) (res : TaxResponse)
    (h : PostTaxCalculation cfg req = .ok res) :
    (∀ b ∈ res.TaxLevels, 0 ≤ b.Tax)
      ∧ ∃ D, resolveDeductions cfg req.Allowances = .ok D
          ∧ res.TaxLevels = (calculateTaxBrackets (req.TotalIncome - D)).map
              (fun b => ⟨b.Level, max 0 (b.Tax - req.WHT)⟩) := by
  unfold PostTaxCalculation at h
  cases hD : resolveDeductions cfg req.Allowances with
  | error e => rw [hD] at h; cases h
  | ok D =>
    rw [hD] at h
    simp only at h
    split_ifs at h with hw
    simp only [Except.ok.injEq] at h
    subst h
    refine ⟨?_, D, rfl, ?_⟩
    · intro b hb
      simp only [netWithholding, List.mem_map] at hb
      obtain ⟨b0, _, rfl⟩ := hb
      exact netBracket_nonneg req.WHT b0
    · simp only [netWithholding, calculateIncomeTaxDetailed]
      refine List.map_congr_left (fun b _ => ?_)
      rw [← netBracket_tax]
      rfl

/-- C6 witness: income 1000000, WHT 40000, no allowances under the initial config:
taxable income 940000, bracket taxes 35000 and 66000 netted to 0 and 26000. -/
theorem C6_netted_brackets_nonneg_witness :
    PostTaxCalculation config ⟨1000000, 40000, []⟩
        = .ok ⟨61000, [ ⟨"0-150,000", 0⟩, ⟨"150,001-500,000", 0⟩,
            ⟨"500,001-1,000,000", 26000⟩, ⟨"1,000,001-2,000,000", 0⟩,
            ⟨"2,000,001 ขึ้นไป", 0⟩ ]⟩
      ∧ ∀ b ∈ [ (⟨"0-150,000", 0⟩ : TaxBracket), ⟨"150,001-500,000", 0⟩,
            ⟨"500,001-1,000,000", 26000⟩, ⟨"1,000,001-2,000,000", 0⟩,
            ⟨"2,000,001 ขึ้นไป", 0⟩ ], 0 ≤ b.Tax := by
  have h0 : PostTaxCalculation config ⟨1000000, 40000, []⟩
        = .ok ⟨61000, [ ⟨"0-150,000", 0⟩, ⟨"150,001-500,000", 0⟩,
            ⟨"500,001-1,000,000", 26000⟩, ⟨"1,000,001-2,000,000", 0⟩,
            ⟨"2,000,001 ขึ้นไป", 0⟩ ]⟩ := by
    norm_num [PostTaxCalculation, resolveDeductions, allowanceLoop, config,
      calculateIncomeTaxDetailed, calculateTotalTax, calculateTaxBrackets, initialBrackets,
      setTax, netWithholding, netBracket]
  exact ⟨h0, (C6_netted_brackets_nonneg config _ _ h0).1⟩


/-! ## Allowance resolution: claims C7 to C10 -/

/-- C7: allowance resolution fails if and only if the list contains a declaration
with a negative amount (any type, any position) or a `personal` declaration whose
amount is below 10000 or above `PersonalDeductionMax`; in every other case it
succeeds; a single personal allowance of 5000 is rejected under every config. -/
theorem C7_resolution_fails_iff (cfg : Config) (l : List Allowance) :
    ((∃ e, resolveDeductions cfg l = .error e) ↔
        ∃ a ∈ l, a.Amount < 0 ∨
          (a.AllowanceType = "personal" ∧
            (a.Amount < 10000 ∨ a.Amount > cfg.PersonalDeductionMax)))
      ∧ ((∃ D, resolveDeductions cfg l = .ok D) ↔
        ¬ ∃ a ∈ l, a.Amount < 0 ∨
          (a.AllowanceType = "personal" ∧
            (a.Amount < 10000 ∨ a.Amount > cfg.PersonalDeductionMax)))
      ∧ ∃ e, resolveDeductions cfg [⟨"personal", 5000⟩] = .error e := by
  have key : (∃ e, resolveDeductions cfg l = .error e) ↔
      ∃ a ∈ l, a.Amount < 0 ∨
        (a.AllowanceType = "personal" ∧
          (a.Amount < 10000 ∨ a.Amount > cfg.PersonalDeductionMax)) :=
    allowanceLoop_error_iff cfg l cfg.PersonalDeductionDefault
  refine ⟨key, ?_, ?_⟩
  · rw [← key]
    constructor
    · rintro ⟨D, hD⟩ ⟨e, he⟩
      rw [hD] at he
      cases he
    · intro hne
      rcases except_error_or_ok (resolveDeductions cfg l) with he | hok
      · exact absurd he hne
      · exact hok
  · refine (allowanceLoop_error_iff cfg [⟨"personal", 5000⟩] cfg.PersonalDeductionDefault).2
      ⟨⟨"personal", 5000⟩, List.mem_singleton.2 rfl, Or.inr ⟨rfl, Or.inl ?_⟩⟩
    norm_num

/-- C8: allowance resolution starts from `PersonalDeductionDefault` and is additive:
for every config the empty list resolves to the default, and for every list
resolving to D, appending a valid `personal` declaration (10000 ≤ a ≤
PersonalDeductionMax), or a declaration of a type other than
personal/donation/k-receipt with a ≥ 0, resolves to exactly D + a. -/
theorem C8_resolution_additive (cfg : Config) :
    resolveDeductions cfg [] = .ok cfg.PersonalDeductionDefault
      ∧ ∀ (l : List Allowance) (D a : ℚ), resolveDeductions cfg l = .ok D →
          (10000 ≤ a → a ≤ cfg.PersonalDeductionMax →
            resolveDeductions cfg (l ++ [⟨"personal", a⟩]) = .ok (D + a))
          ∧ (∀ ty : String, ty ≠ "personal" → ty ≠ "donation" → ty ≠ "k-receipt" → 0 ≤ a →
            resolveDeductions cfg (l ++ [⟨ty, a⟩]) = .ok (D + a)) := by
  refine ⟨rfl, fun l D a hD => ⟨?_, ?_⟩⟩
  · intro h1 h2
    rw [resolveDeductions_append cfg l _ D hD]
    have n1 : ¬ a < 0 := by intro c; linarith
    have n2 : ¬ (a > cfg.PersonalDeductionMax ∨ a < 10000) := by
      rintro (c | c) <;> linarith
    simp [allowanceStep, n1, n2]
  · intro ty t1 t2 t3 h0
    rw [resolveDeductions_append cfg l _ D hD]
    have n1 : ¬ a < 0 := not_lt.mpr h0
    simp [allowanceStep, n1, t1, t2, t3]

/-- C8 witness: under the config (70000, 100000, 100000, 50000, 100000) the empty
list resolves to 70000 and [donation 150000] to 170000; appending personal 20000
gives 190000 and appending an `other` declaration of 5 gives 170005. -/
theorem C8_resolution_additive_witness :
    resolveDeductions ⟨70000, 100000, 100000, 50000, 100000⟩ [] = .ok 70000
      ∧ resolveDeductions ⟨70000, 100000, 100000, 50000, 100000⟩ [⟨"donation", 150000⟩]
          = .ok 170000
      ∧ resolveDeductions ⟨70000, 100000, 100000, 50000, 100000⟩
          ([⟨"donation", 150000⟩] ++ [⟨"personal", 20000⟩]) = .ok (170000 + 20000)
      ∧ resolveDeductions ⟨70000, 100000, 100000, 50000, 100000⟩
          ([⟨"donation", 150000⟩] ++ [⟨"other", 5⟩]) = .ok (170000 + 5) := by
  have h0 : resolveDeductions ⟨70000, 100000, 100000, 50000, 100000⟩ [⟨"donation", 150000⟩]
      = .ok 170000 := by
    simp [resolveDeductions, allowanceLoop, allowanceStep]
    norm_num
  have h := C8_resolution_additive ⟨70000, 100000, 100000, 50000, 100000⟩
  have h1 := h.2 [⟨"donation", 150000⟩] 170000 20000 h0
  have h2 := h.2 [⟨"donation", 150000⟩] 170000 5 h0
  exact ⟨h.1, h0, h1.1 (by norm_num) (by norm_num),
    h2.2 "other" (by decide) (by decide) (by decide) (by norm_num)⟩

/-- C9: a `donation` declaration is capped, never rejected: for every config, every
list resolving to D and every a ≥ 0, appending a donation of a resolves to
D + min(a, DonationMax); with DonationMax = 100000 a donation of 150000
contributes exactly 100000. -/
theorem C9_donation_capped (cfg : Config) (l : List Allowance) (D a : ℚ)
    (hD : resolveDeductions cfg l = .ok D) (ha : 0 ≤ a) :
    resolveDeductions cfg (l ++ [⟨"donation", a⟩]) = .ok (D + min a cfg.DonationMax)
      ∧ (cfg.DonationMax = 100000 →
          resolveDeductions cfg (l ++ [⟨"donation", 150000⟩]) = .ok (D + 100000)) := by
  constructor
  · rw [resolveDeductions_append cfg l _ D hD]
    have n1 : ¬ a < 0 := not_lt.mpr ha
    by_cases hc : a > cfg.DonationMax
    · simp [allowanceStep, n1, hc, min_eq_right (le_of_lt hc)]
    · simp [allowanceStep, n1, hc, min_eq_left (not_lt.mp hc)]
  · intro hmax
    rw [resolveDeductions_append cfg l _ D hD]
    simp [allowanceStep, hmax]
    norm_num

/-- C9 witness: under the initial config, after [personal 20000] (total 80000) a
donation of 150000 brings the total to 180000. -/
theorem C9_donation_capped_witness :
    resolveDeductions config [⟨"personal", 20000⟩] = .ok 80000
      ∧ (0 : ℚ) ≤ 150000
      ∧ resolveDeductions config ([⟨"personal", 20000⟩] ++ [⟨"donation", 150000⟩])
          = .ok (80000 + min 150000 config.DonationMax)
      ∧ resolveDeductions config ([⟨"personal", 20000⟩] ++ [⟨"donation", 150000⟩])
          = .ok (80000 + 100000) := by
  have h0 : resolveDeductions config [⟨"personal", 20000⟩] = .ok 80000 := by
    norm_num [resolveDeductions, allowanceLoop, allowanceStep, config]
  have h1 := C9_donation_capped config [⟨"personal", 20000⟩] 80000 150000 h0 (by norm_num)
  exact ⟨h0, by norm_num, h1.1, h1.2 rfl⟩

/-- C10: a `k-receipt` declaration above the maximum is replaced by the configured
default, not clamped: for every config, every list resolving to D and every a ≥ 0,
appending a k-receipt of a resolves to D + KReceiptDefault when a > KReceiptMax and
a > 0, and to D + a otherwise; with KReceiptMax = 100000 and KReceiptDefault =
50000 a k-receipt of 200000 contributes exactly 50000. -/
theorem C10_kreceipt_replaced_by_default (cfg : Config) (l : List Allowance) (D a : ℚ)
    (hD : resolveDeductions cfg l = .ok D) (ha : 0 ≤ a) :
    (a > cfg.KReceiptMax ∧ a > 0 →
        resolveDeductions cfg (l ++ [⟨"k-receipt", a⟩]) = .ok (D + cfg.KReceiptDefault))
      ∧ (¬ (a > cfg.KReceiptMax ∧ a > 0) →
        resolveDeductions cfg (l ++ [⟨"k-receipt", a⟩]) = .ok (D + a))
      ∧ (cfg.KReceiptMax = 100000 → cfg.KReceiptDefault = 50000 →
        resolveDeductions cfg (l ++ [⟨"k-receipt", 200000⟩]) = .ok (D + 50000)) := by
  have n1 : ¬ a < 0 := not_lt.mpr ha
  refine ⟨?_, ?_, ?_⟩
  · intro hc
    rw [resolveDeductions_append cfg l _ D hD]
    simp [allowanceStep, n1, hc.1, hc.2]
  · intro hc
    rw [resolveDeductions_append cfg l _ D hD]
    have hc2 : ¬ (cfg.KReceiptMax < a ∧ 0 < a) := hc
    simp only [allowanceStep, n1, if_false, gt_iff_lt, hc2]
    simp
  · intro hmax hdef
    rw [resolveDeductions_append cfg l _ D hD]
    simp [allowanceStep, hmax, hdef]
    norm_num

/-- C10 witness: under the initial config, after [personal 20000] (total 80000) a
k-receipt of 200000 adds the default 50000, and a k-receipt of 30000 adds 30000. -/
theorem C10_kreceipt_replaced_by_default_witness :
    resolveDeductions config [⟨"personal", 20000⟩] = .ok 80000
      ∧ resolveDeductions config ([⟨"personal", 20000⟩] ++ [⟨"k-receipt", 200000⟩])
          = .ok (80000 + config.KReceiptDefault)
      ∧ resolveDeductions config ([⟨"personal", 20000⟩] ++ [⟨"k-receipt", 30000⟩])
          = .ok (80000 + 30000)
      ∧ resolveDeductions config ([⟨"personal", 20000⟩] ++ [⟨"k-receipt", 200000⟩])
          = .ok (80000 + 50000) := by
  have h0 : resolveDeductions config [⟨"personal", 20000⟩] = .ok 80000 := by
    norm_num [resolveDeductions, allowanceLoop, allowanceStep, config]
  have h1 := C10_kreceipt_replaced_by_default config [⟨"personal", 20000⟩] 80000 200000 h0
    (by norm_num)
  have h2 := C10_kreceipt_replaced_by_default config [⟨"personal", 20000⟩] 80000 30000 h0
    (by norm_num)
  exact ⟨h0, h1.1 (by norm_num [config]), h2.2.1 (by norm_num [config]), h1.2.2 rfl rfl⟩

/-! ## Batch netting: claims C11 and C12 -/

theorem taxDetailsLoop_eq (cfg : Config) (acc : List TaxDetail) (records : List TotalIncomeCsv) :
    taxDetailsLoop cfg acc records = acc ++ records.map (taxDetailOf cfg) := by
  induction records generalizing acc with
  | nil => simp [taxDetailsLoop]
  | cons r rest ih => simp [taxDetailsLoop, ih]

theorem handler_eq_map (cfg : Config) (records : List TotalIncomeCsv) :
    TaxCalculationsCSVHandler cfg records = records.map (taxDetailOf cfg) := by
  simp [TaxCalculationsCSVHandler, taxDetailsLoop_eq]

/-- C11: batch netting: for every record and config, with
L = calculateTotalTax(totalIncome - PersonalDeductionDefault - donation - wht), the
emitted detail has Tax = max(0, L - wht) and TaxRefund = max(0, wht - L); hence both
are ≥ 0, at most one is nonzero, and Tax - TaxRefund = L - wht.  For totalIncome
100000, donation 0, wht 10000 and default 60000 the taxable income is 30000, Tax is
0 and TaxRefund is 10000. -/
theorem C11_batch_netting (cfg : Config) (r : TotalIncomeCsv) :
    TaxCalculationsCSVHandler cfg [r] = [taxDetailOf cfg r]
      ∧ (taxDetailOf cfg r).Tax
          = max 0 (calculateTotalTax
              (r.TotalIncome - cfg.PersonalDeductionDefault - r.Donation - r.WHT) - r.WHT)
      ∧ (taxDetailOf cfg r).TaxRefund
          = max 0 (r.WHT - calculateTotalTax
              (r.TotalIncome - cfg.PersonalDeductionDefault - r.Donation - r.WHT))
      ∧ 0 ≤ (taxDetailOf cfg r).Tax
      ∧ 0 ≤ (taxDetailOf cfg r).TaxRefund
      ∧ ((taxDetailOf cfg r).Tax = 0 ∨ (taxDetailOf cfg r).TaxRefund = 0)
      ∧ (taxDetailOf cfg r).Tax - (taxDetailOf cfg r).TaxRefund
          = calculateTotalTax
              (r.TotalIncome - cfg.PersonalDeductionDefault - r.Donation - r.WHT) - r.WHT
      ∧ (100000 : ℚ) - 60000 - 0 - 10000 = 30000
      ∧ taxDetailOf { cfg with PersonalDeductionDefault := 60000 } ⟨100000, 10000, 0⟩
          = ⟨100000, 0, 10000⟩ := by
  refine ⟨rfl, ?_, ?_, ?_, ?_, ?_, ?_, by norm_num, ?_⟩
  all_goals simp only [taxDetailOf, calculateIncomeTaxDetailed]
  · split_ifs with h
    · exact (max_eq_left (le_of_lt h)).symm
    · exact (max_eq_right (not_lt.mp h)).symm
  · split_ifs with h
    · rw [max_eq_right (by linarith)]; ring
    · rw [max_eq_left (by linarith)]
  · split_ifs with h
    · exact le_rfl
    · exact not_lt.mp h
  · split_ifs with h
    · dsimp only
      linarith
    · exact le_rfl
  · split_ifs with h
    · exact Or.inl rfl
    · exact Or.inr rfl
  · split_ifs with h
    · ring
    · ring
  · have e : (100000 : ℚ) - 60000 - 0 - 10000 = 30000 := by norm_num
    rw [e, total_band0 (by norm_num)]
    norm_num

/-- C12: batch netting emits exactly one detail per input record in input order:
the output has the length of the input, the TotalIncome of the i-th detail is the
totalIncome of the i-th record, and the output is the per-record function
`taxDetailOf cfg` mapped over the input (no cross-record state). -/
theorem C12_batch_one_detail_per_record (cfg : Config) (records : List TotalIncomeCsv) :
    (TaxCalculationsCSVHandler cfg records).length = records.length
      ∧ (∀ i : Nat, ((TaxCalculationsCSVHandler cfg records)[i]?).map TaxDetail.TotalIncome
          = (records[i]?).map TotalIncomeCsv.TotalIncome)
      ∧ TaxCalculationsCSVHandler cfg records = records.map (taxDetailOf cfg) := by
  refine ⟨?_, fun i => ?_, handler_eq_map cfg records⟩
  · rw [handler_eq_map, List.length_map]
  · rw [handler_eq_map, List.getElem?_map]
    cases records[i]? with
    | none => rfl
    | some r => rfl

/-! ## Withholding validation: claim C13 -/

/-- C13: for every request whose allowances resolve (to D), `PostTaxCalculation`
rejects the request if and only if wht < 0 or wht > totalIncome; every accepted
request has 0 ≤ wht ≤ totalIncome, and the returned total is
calculateTotalTax(totalIncome - D) - wht. -/
theorem C13_withholding_validation (cfg : Config) (req : TaxRequest) (D : ℚ)
    (hD : resolveDeductions cfg req.Allowances = .ok D) :
    ((∃ e, PostTaxCalculation cfg req = .error e) ↔ (req.WHT < 0 ∨ req.WHT > req.TotalIncome))
      ∧ ((req.WHT < 0 ∨ req.WHT > req.TotalIncome) →
          PostTaxCalculation cfg req = .error .invalidWHT)
      ∧ (¬ (req.WHT < 0 ∨ req.WHT > req.TotalIncome) →
          ∃ res, PostTaxCalculation cfg req = .ok res)
      ∧ ∀ res, PostTaxCalculation cfg req = .ok res →
          0 ≤ req.WHT ∧ req.WHT ≤ req.TotalIncome
            ∧ res.Tax = calculateTotalTax (req.TotalIncome - D) - req.WHT := by
  have hpos : (req.WHT < 0 ∨ req.WHT > req.TotalIncome) →
      PostTaxCalculation cfg req = .error .invalidWHT := by
    intro hc
    simp only [PostTaxCalculation, hD, if_pos hc]
  have hneg : ¬ (req.WHT < 0 ∨ req.WHT > req.TotalIncome) →
      PostTaxCalculation cfg req = .ok (netWithholding (calculateTotalTax (req.TotalIncome - D))
        (calculateTaxBrackets (req.TotalIncome - D)) req.WHT) := by
    intro hc
    simp only [PostTaxCalculation, hD, if_neg hc, calculateIncomeTaxDetailed]
  refine ⟨⟨?_, fun hc => ⟨_, hpos hc⟩⟩, hpos, fun hc => ⟨_, hneg hc⟩, ?_⟩
  · rintro ⟨e, he⟩
    by_contra hc
    rw [hneg hc] at he
    cases he
  · intro res hres
    by_cases hc : req.WHT < 0 ∨ req.WHT > req.TotalIncome
    · rw [hpos hc] at hres
      cases hres
    · rw [hneg hc, Except.ok.injEq] at hres
      subst hres
      have h1 : ¬ req.WHT < 0 := fun c => hc (Or.inl c)
      have h2 : ¬ req.WHT > req.TotalIncome := fun c => hc (Or.inr c)
      exact ⟨not_lt.mp h1, not_lt.mp h2, rfl⟩

/-- C13 witness: income 1000000, WHT 40000, no allowances under the initial config
(deductions 60000): accepted with total calculateTotalTax(940000) - 40000. -/
theorem C13_withholding_validation_witness :
    resolveDeductions config (TaxRequest.mk 1000000 40000 []).Allowances = .ok 60000
      ∧ (∃ res, PostTaxCalculation config ⟨1000000, 40000, []⟩ = .ok res)
      ∧ ¬ (∃ e, PostTaxCalculation config ⟨1000000, 40000, []⟩ = .error e) := by
  have h0 : resolveDeductions config (TaxRequest.mk 1000000 40000 []).Allowances
      = .ok 60000 := rfl
  have h := C13_withholding_validation config ⟨1000000, 40000, []⟩ 60000 h0
  have hc : ¬ ((TaxRequest.mk 1000000 40000 []).WHT < 0
      ∨ (TaxRequest.mk 1000000 40000 []).WHT > (TaxRequest.mk 1000000 40000 []).TotalIncome) := by
    norm_num
  exact ⟨h0, h.2.2.1 hc, fun he => hc (h.1.1 he)⟩

/-! ## Administrative setters: claims C14, C17 and C18 -/

theorem setPersonal_rejected {cfg : Config} {amount : ℚ}
    (h : amount < 10000 ∨ amount > cfg.PersonalDeductionMax) :
    SetPersonalDeduction cfg amount = (cfg, .error .personalOutOfRange) := by
  simp only [SetPersonalDeduction, if_pos h]

theorem setPersonal_accepted {cfg : Config} {amount : ℚ}
    (h : ¬ (amount < 10000 ∨ amount > cfg.PersonalDeductionMax)) :
    SetPersonalDeduction cfg amount
      = ({ cfg with PersonalDeductionDefault := amount }, .ok amount) := by
  simp only [SetPersonalDeduction, if_neg h]

theorem setKReceipt_rejected {cfg : Config} {amount : ℚ}
    (h : amount < 0 ∨ amount > cfg.KReceiptMax) :
    SetKReceiptDeduction cfg amount = (cfg, .error .kReceiptOutOfRange) := by
  simp only [SetKReceiptDeduction, if_pos h]

theorem setKReceipt_accepted {cfg : Config} {amount : ℚ}
    (h : ¬ (amount < 0 ∨ amount > cfg.KReceiptMax)) :
    SetKReceiptDeduction cfg amount
      = ({ cfg with KReceiptDefault := amount }, .ok amount) := by
  simp only [SetKReceiptDeduction, if_neg h]

/-- C14: the setters validate before mutating: `SetPersonalDeduction` is rejected if
and only if amount < 10000 or amount > PersonalDeductionMax, `SetKReceiptDeduction`
is rejected if and only if amount < 0 or amount > KReceiptMax, and a rejected call
leaves the whole config unchanged. -/
theorem C14_setters_validate_before_mutating (cfg : Config) (amount : ℚ) :
    ((∃ e, (SetPersonalDeduction cfg amount).2 = .error e)
        ↔ (amount < 10000 ∨ amount > cfg.PersonalDeductionMax))
      ∧ ((∃ e, (SetKReceiptDeduction cfg amount).2 = .error e)
        ↔ (amount < 0 ∨ amount > cfg.KReceiptMax))
      ∧ ((∃ e, (SetPersonalDeduction cfg amount).2 = .error e) →
          (SetPersonalDeduction cfg amount).1 = cfg)
      ∧ ((∃ e, (SetKReceiptDeduction cfg amount).2 = .error e) →
          (SetKReceiptDeduction cfg amount).1 = cfg) := by
  have p1 : (∃ e, (SetPersonalDeduction cfg amount).2 = .error e)
      ↔ (amount < 10000 ∨ amount > cfg.PersonalDeductionMax) := by
    constructor
    · rintro ⟨e, he⟩
      by_contra hc
      rw [setPersonal_accepted hc] at he
      cases he
    · intro hc
      exact ⟨_, by rw [setPersonal_rejected hc]⟩
  have p2 : (∃ e, (SetKReceiptDeduction cfg amount).2 = .error e)
      ↔ (amount < 0 ∨ amount > cfg.KReceiptMax) := by
    constructor
    · rintro ⟨e, he⟩
      by_contra hc
      rw [setKReceipt_accepted hc] at he
      cases he
    · intro hc
      exact ⟨_, by rw [setKReceipt_rejected hc]⟩
  refine ⟨p1, p2, fun h => ?_, fun h => ?_⟩
  · rw [setPersonal_rejected (p1.1 h)]
  · rw [setKReceipt_rejected (p2.1 h)]

/-- C14 witness: under the initial config, personal amount 5000 and k-receipt amount
150000 are both rejected and leave the config as it was. -/
theorem C14_setters_validate_before_mutating_witness :
    (∃ e, (SetPersonalDeduction config 5000).2 = .error e)
      ∧ (SetPersonalDeduction config 5000).1 = config
      ∧ (∃ e, (SetKReceiptDeduction config 150000).2 = .error e)
      ∧ (SetKReceiptDeduction config 150000).1 = config := by
  have a := C14_setters_validate_before_mutating config 5000
  have b := C14_setters_validate_before_mutating config 150000
  have ha : (∃ e, (SetPersonalDeduction config 5000).2 = .error e) :=
    a.1.2 (Or.inl (by norm_num))
  have hb : (∃ e, (SetKReceiptDeduction config 150000).2 = .error e) :=
    b.2.1.2 (Or.inr (by norm_num [config]))
  exact ⟨ha, a.2.2.1 ha, hb, b.2.2.2 hb⟩

/-- C17: a successful setter call changes exactly its own field: after an accepted
`SetPersonalDeduction` the new PersonalDeductionDefault is the amount and the other
four fields are unchanged; after an accepted `SetKReceiptDeduction` the new
KReceiptDefault is the amount and the other four fields are unchanged. -/
theorem C17_setter_frame (cfg : Config) (amount : ℚ) :
    ((∃ v, (SetPersonalDeduction cfg amount).2 = .ok v) →
        (SetPersonalDeduction cfg amount).1.PersonalDeductionDefault = amount
          ∧ (SetPersonalDeduction cfg amount).1.PersonalDeductionMax = cfg.PersonalDeductionMax
          ∧ (SetPersonalDeduction cfg amount).1.DonationMax = cfg.DonationMax
          ∧ (SetPersonalDeduction cfg amount).1.KReceiptDefault = cfg.KReceiptDefault
          ∧ (SetPersonalDeduction cfg amount).1.KReceiptMax = cfg.KReceiptMax)
      ∧ ((∃ v, (SetKReceiptDeduction cfg amount).2 = .ok v) →
        (SetKReceiptDeduction cfg amount).1.KReceiptDefault = amount
          ∧ (SetKReceiptDeduction cfg amount).1.PersonalDeductionDefault
              = cfg.PersonalDeductionDefault
          ∧ (SetKReceiptDeduction cfg amount).1.PersonalDeductionMax = cfg.PersonalDeductionMax
          ∧ (SetKReceiptDeduction cfg amount).1.DonationMax = cfg.DonationMax
          ∧ (SetKReceiptDeduction cfg amount).1.KReceiptMax = cfg.KReceiptMax) := by
  constructor
  · rintro ⟨v, hv⟩
    by_cases hc : amount < 10000 ∨ amount > cfg.PersonalDeductionMax
    · rw [setPersonal_rejected hc] at hv
      cases hv
    · rw [setPersonal_accepted hc]
      exact ⟨rfl, rfl, rfl, rfl, rfl⟩
  · rintro ⟨v, hv⟩
    by_cases hc : amount < 0 ∨ amount > cfg.KReceiptMax
    · rw [setKReceipt_rejected hc] at hv
      cases hv
    · rw [setKReceipt_accepted hc]
      exact ⟨rfl, rfl, rfl, rfl, rfl⟩

/-- C17 witness: under the initial config, personal amount 70000 and k-receipt
amount 30000 are accepted and give the configs (70000, 100000, 100000, 50000,
100000) and (60000, 100000, 100000, 30000, 100000). -/
theorem C17_setter_frame_witness :
    (SetPersonalDeduction config 70000).2 = .ok 70000
      ∧ (SetPersonalDeduction config 70000).1.PersonalDeductionDefault = 70000
      ∧ (SetPersonalDeduction config 70000).1.KReceiptDefault = config.KReceiptDefault
      ∧ (SetKReceiptDeduction config 30000).2 = .ok 30000
      ∧ (SetKReceiptDeduction config 30000).1.KReceiptDefault = 30000
      ∧ (SetKReceiptDeduction config 30000).1.PersonalDeductionDefault
          = config.PersonalDeductionDefault := by
  have h1 : (SetPersonalDeduction config 70000).2 = .ok 70000 := by
    rw [setPersonal_accepted (by norm_num [config])]
  have h2 : (SetKReceiptDeduction config 30000).2 = .ok 30000 := by
    rw [setKReceipt_accepted (by norm_num [config])]
  have a := (C17_setter_frame config 70000).1 ⟨_, h1⟩
  have b := (C17_setter_frame config 30000).2 ⟨_, h2⟩
  exact ⟨h1, a.1, a.2.2.2.1, h2, b.1, b.2.1⟩

theorem wellFormed_setPersonal {cfg : Config} (amount : ℚ) (h : WellFormed cfg) :
    WellFormed (SetPersonalDeduction cfg amount).1 := by
  by_cases hc : amount < 10000 ∨ amount > cfg.PersonalDeductionMax
  · rw [setPersonal_rejected hc]
    exact h
  · rw [setPersonal_accepted hc]
    obtain ⟨_, _, h3, h4, h5, h6, h7⟩ := h
    exact ⟨not_lt.mp (fun c => hc (Or.inl c)), not_lt.mp (fun c => hc (Or.inr c)),
      h3, h4, h5, h6, h7⟩

theorem wellFormed_setKReceipt {cfg : Config} (amount : ℚ) (h : WellFormed cfg) :
    WellFormed (SetKReceiptDeduction cfg amount).1 := by
  by_cases hc : amount < 0 ∨ amount > cfg.KReceiptMax
  · rw [setKReceipt_rejected hc]
    exact h
  · rw [setKReceipt_accepted hc]
    obtain ⟨h1, h2, _, _, h5, h6, h7⟩ := h
    exact ⟨h1, h2, not_lt.mp (fun c => hc (Or.inl c)), not_lt.mp (fun c => hc (Or.inr c)),
      h5, h6, h7⟩

theorem wellFormed_runCalls (calls : List AdminCall) {cfg : Config} (h : WellFormed cfg) :
    WellFormed (runCalls cfg calls) := by
  induction calls generalizing cfg with
  | nil => exact h
  | cons c rest ih =>
    simp only [runCalls, List.foldl_cons]
    apply ih
    cases c with
    | setPersonal amount => exact wellFormed_setPersonal amount h
    | setKReceipt amount => exact wellFormed_setKReceipt amount h

theorem wellFormed_initial : WellFormed config := by
  simp only [WellFormed, config]
  norm_num

theorem kreceipt_contribution_le {cfg : Config} (h : WellFormed cfg) (D a t : ℚ)
    (ht : allowanceStep cfg D ⟨"k-receipt", a⟩ = .ok t) : t - D ≤ cfg.KReceiptMax := by
  obtain ⟨_, _, _, h4, _, _, h7⟩ := h
  have hk : ("k-receipt" : String) ≠ "personal" := by decide
  have hk2 : ("k-receipt" : String) ≠ "donation" := by decide
  simp only [allowanceStep, hk, hk2, if_false] at ht
  split_ifs at ht with h1 h2
  · simp only [Except.ok.injEq] at ht
    linarith
  · simp only [Except.ok.injEq, if_true] at ht
    have : a ≤ cfg.KReceiptMax ∨ a ≤ 0 := by
      by_contra hc
      push_neg at hc
      exact h2 ⟨hc.1, hc.2⟩
    rcases this with c | c <;> linarith

/-- C18: config well-formedness is an invariant of every reachable configuration:
the initial config is well formed (10000 ≤ PersonalDeductionDefault ≤
PersonalDeductionMax, 0 ≤ KReceiptDefault ≤ KReceiptMax, the three maxima equal
100000), every call of either setter with any amount, accepted or rejected,
preserves it, so it holds after every sequence of calls; and in every reachable
config a k-receipt declaration appended to a list that resolves to D adds at most
KReceiptMax to the total. -/
theorem C18_config_invariant :
    WellFormed config
      ∧ (∀ (cfg : Config) (amount : ℚ), WellFormed cfg →
          WellFormed (SetPersonalDeduction cfg amount).1
            ∧ WellFormed (SetKReceiptDeduction cfg amount).1)
      ∧ (∀ calls : List AdminCall, WellFormed (runCalls config calls))
      ∧ ∀ (calls : List AdminCall) (l : List Allowance) (D a t : ℚ),
          resolveDeductions (runCalls config calls) l = .ok D →
          resolveDeductions (runCalls config calls) (l ++ [⟨"k-receipt", a⟩]) = .ok t →
          t - D ≤ (runCalls config calls).KReceiptMax := by
  refine ⟨wellFormed_initial, fun cfg amount h => ⟨wellFormed_setPersonal amount h,
    wellFormed_setKReceipt amount h⟩, fun calls => wellFormed_runCalls calls wellFormed_initial,
    ?_⟩
  intro calls l D a t hD ht
  rw [resolveDeductions_append _ l _ D hD] at ht
  exact kreceipt_contribution_le (wellFormed_runCalls calls wellFormed_initial) D a t ht

/-- C18 witness: after the calls SetKReceiptDeduction(30000), SetPersonalDeduction(5000)
(rejected) and SetPersonalDeduction(70000) the config is (70000, 100000, 100000,
30000, 100000); it is well formed, and a k-receipt of 200000 after the empty list
adds 30000 ≤ 100000. -/
theorem C18_config_invariant_witness :
    runCalls config [.setKReceipt 30000, .setPersonal 5000, .setPersonal 70000]
        = ⟨70000, 100000, 100000, 30000, 100000⟩
      ∧ WellFormed (⟨70000, 100000, 100000, 30000, 100000⟩ : Config)
      ∧ WellFormed (SetPersonalDeduction ⟨70000, 100000, 100000, 30000, 100000⟩ 20000).1
      ∧ (100000 : ℚ) - 70000 ≤ (⟨70000, 100000, 100000, 30000, 100000⟩ : Config).KReceiptMax := by
  have e : runCalls config [.setKReceipt 30000, .setPersonal 5000, .setPersonal 70000]
      = ⟨70000, 100000, 100000, 30000, 100000⟩ := by
    norm_num [runCalls, applyCall, SetPersonalDeduction, SetKReceiptDeduction, config]
  have w := C18_config_invariant.2.2.1 [.setKReceipt 30000, .setPersonal 5000, .setPersonal 70000]
  rw [e] at w
  have k := C18_config_invariant.2.2.2
    [.setKReceipt 30000, .setPersonal 5000, .setPersonal 70000] [] 70000 200000 100000
  rw [e] at k
  refine ⟨e, w, (C18_config_invariant.2.1 _ 20000 w).1, k rfl ?_⟩
  simp [resolveDeductions, allowanceLoop, allowanceStep]
  norm_num

/-! ## The dead conjunct of the k-receipt rule: claim C16 -/

theorem allowanceStepMaxOnly_eq {cfg : Config} (hmax : 0 ≤ cfg.KReceiptMax) (t : ℚ)
    (a : Allowance) : allowanceStepMaxOnly cfg t a = allowanceStep cfg t a := by
  unfold allowanceStepMaxOnly allowanceStep
  by_cases h0 : a.Amount < 0
  · simp only [if_pos h0]
  · by_cases hk : a.Amount > cfg.KReceiptMax
    · have hpos : a.Amount > 0 := lt_of_le_of_lt hmax hk
      simp only [hk, hpos, and_self]
    · simp only [hk, false_and]

theorem allowanceLoopMaxOnly_eq {cfg : Config} (hmax : 0 ≤ cfg.KReceiptMax)
    (l : List Allowance) (t : ℚ) : allowanceLoopMaxOnly cfg t l = allowanceLoop cfg t l := by
  induction l generalizing t with
  | nil => rfl
  | cons a rest ih =>
    simp only [allowanceLoopMaxOnly, allowanceLoop, allowanceStepMaxOnly_eq hmax]
    cases allowanceStep cfg t a with
    | error e => rfl
    | ok u => exact ih u

/-- C16: the `amount > 0` conjunct of the k-receipt rule is dead given the
non-negative check: in every config the program can hold (the initial config after
any sequence of setter calls) and for every k-receipt amount that passed the check
amount ≥ 0, the case `amount > KReceiptMax` but `amount ≤ 0` cannot occur, so
resolving with the condition `amount > KReceiptMax && amount > 0` gives the same
result as resolving with `amount > KReceiptMax` alone; the same holds for any
config whose KReceiptMax is not negative. -/
theorem C16_positive_conjunct_dead (calls : List AdminCall) :
    (∀ a : ℚ, 0 ≤ a → ¬ (a > (runCalls config calls).KReceiptMax ∧ a ≤ 0))
      ∧ (∀ l : List Allowance,
          resolveDeductionsMaxOnly (runCalls config calls) l
            = resolveDeductions (runCalls config calls) l)
      ∧ ∀ cfg : Config, 0 ≤ cfg.KReceiptMax →
          ∀ l : List Allowance, resolveDeductionsMaxOnly cfg l = resolveDeductions cfg l := by
  have w := wellFormed_runCalls calls wellFormed_initial
  have h7 : (runCalls config calls).KReceiptMax = 100000 := w.2.2.2.2.2.2
  have hmax : 0 ≤ (runCalls config calls).KReceiptMax := by rw [h7]; norm_num
  refine ⟨?_, fun l => allowanceLoopMaxOnly_eq hmax l _,
    fun cfg hc l => allowanceLoopMaxOnly_eq hc l _⟩
  rintro a _ ⟨h1, h2⟩
  linarith

/-- C16 witness: after SetKReceiptDeduction(30000) the amount 0 passes the check
amount ≥ 0 and is not above KReceiptMax = 100000; a k-receipt of 0 and one of
200000 resolve to the same totals under both conditions. -/
theorem C16_positive_conjunct_dead_witness :
    (0 : ℚ) ≤ 0
      ∧ ¬ ((0 : ℚ) > (runCalls config [.setKReceipt 30000]).KReceiptMax ∧ (0 : ℚ) ≤ 0)
      ∧ resolveDeductionsMaxOnly (runCalls config [.setKReceipt 30000])
            [⟨"k-receipt", 0⟩, ⟨"k-receipt", 200000⟩]
          = resolveDeductions (runCalls config [.setKReceipt 30000])
            [⟨"k-receipt", 0⟩, ⟨"k-receipt", 200000⟩]
      ∧ (0 : ℚ) ≤ config.KReceiptMax
      ∧ resolveDeductionsMaxOnly config [⟨"k-receipt", 200000⟩]
          = resolveDeductions config [⟨"k-receipt", 200000⟩] := by
  have h := C16_positive_conjunct_dead [.setKReceipt 30000]
  have h0 : (0 : ℚ) ≤ config.KReceiptMax := by norm_num [config]
  exact ⟨le_rfl, h.1 0 le_rfl, h.2.1 _, h0, h.2.2 config h0 _⟩

/-! ## Marginal rate: claim C19 -/

theorem total_cases (x : ℚ) :
    (x ≤ 150000 ∧ calculateTotalTax x = 0)
      ∨ (150000 < x ∧ x ≤ 500000 ∧ calculateTotalTax x = (x - 150000) * 0.1)
      ∨ (500000 < x ∧ x ≤ 1000000 ∧ calculateTotalTax x = (x - 500000) * 0.15 + 35000)
      ∨ (1000000 < x ∧ x ≤ 2000000 ∧ calculateTotalTax x = (x - 1000000) * 0.2 + 110000)
      ∨ (2000000 < x ∧ calculateTotalTax x = (x - 2000000) * 0.35 + 310000) := by
  rcases income_cases x with h | ⟨h, h2⟩ | ⟨h, h2⟩ | ⟨h, h2⟩ | h
  · exact Or.inl ⟨h, total_band0 h⟩
  · exact Or.inr (Or.inl ⟨h, h2, total_band1 h h2⟩)
  · exact Or.inr (Or.inr (Or.inl ⟨h, h2, total_band2 h h2⟩))
  · exact Or.inr (Or.inr (Or.inr (Or.inl ⟨h, h2, total_band3 h h2⟩)))
  · exact Or.inr (Or.inr (Or.inr (Or.inr ⟨h, total_band4 h⟩)))

theorem total_marginal {x y : ℚ} (h : x ≤ y) :
    calculateTotalTax y - calculateTotalTax x ≤ 0.35 * (y - x) := by
  rcases total_cases x with ⟨hx, ex⟩ | ⟨hx, hx2, ex⟩ | ⟨hx, hx2, ex⟩ | ⟨hx, hx2, ex⟩ | ⟨hx, ex⟩ <;>
  rcases total_cases y with ⟨hy, ey⟩ | ⟨hy, hy2, ey⟩ | ⟨hy, hy2, ey⟩ | ⟨hy, hy2, ey⟩ | ⟨hy, ey⟩ <;>
  rw [ex, ey] <;> norm_num <;> linarith

theorem total_mono {x y : ℚ} (h : x ≤ y) : calculateTotalTax x ≤ calculateTotalTax y := by
  rcases total_cases x with ⟨hx, ex⟩ | ⟨hx, hx2, ex⟩ | ⟨hx, hx2, ex⟩ | ⟨hx, hx2, ex⟩ | ⟨hx, ex⟩ <;>
  rcases total_cases y with ⟨hy, ey⟩ | ⟨hy, hy2, ey⟩ | ⟨hy, hy2, ey⟩ | ⟨hy, hy2, ey⟩ | ⟨hy, ey⟩ <;>
  rw [ex, ey] <;> norm_num <;> linarith

theorem total_abs_le (x y : ℚ) :
    |calculateTotalTax y - calculateTotalTax x| ≤ 0.35 * |y - x| := by
  rcases le_total x y with h | h
  · rw [abs_of_nonneg (sub_nonneg.2 (total_mono h)), abs_of_nonneg (sub_nonneg.2 h)]
    exact total_marginal h
  · rw [abs_sub_comm, abs_sub_comm y x, abs_of_nonneg (sub_nonneg.2 (total_mono h)),
      abs_of_nonneg (sub_nonneg.2 h)]
    exact total_marginal h

theorem total_continuous : Continuous calculateTotalTax := by
  have hl : LipschitzWith (35 / 100 : NNReal) calculateTotalTax := by
    apply LipschitzWith.of_dist_le_mul
    intro x y
    rw [Rat.dist_eq, Rat.dist_eq]
    have h := total_abs_le y x
    have h2 : ((|calculateTotalTax x - calculateTotalTax y| : ℚ) : ℝ)
        ≤ ((0.35 * |x - y| : ℚ) : ℝ) := by exact_mod_cast h
    push_cast at h2
    norm_num at h2 ⊢
    linarith
  exact hl.continuous

/-- C19: the marginal rate never exceeds the top rate: for x ≤ y,
calculateTotalTax(y) - calculateTotalTax(x) ≤ 0.35 * (y - x); the total tax is
continuous (it is 0.35-Lipschitz, so there is no jump at any bracket threshold),
and for every y > 0 the total tax is strictly less than y. -/
theorem C19_marginal_rate_bounded (x y : ℚ) (h : x ≤ y) :
    calculateTotalTax y - calculateTotalTax x ≤ 0.35 * (y - x)
      ∧ |calculateTotalTax y - calculateTotalTax x| ≤ 0.35 * |y - x|
      ∧ Continuous calculateTotalTax
      ∧ (0 < y → calculateTotalTax y < y) := by
  refine ⟨total_marginal h, total_abs_le x y, total_continuous, fun hy => ?_⟩
  have h0 := total_marginal (le_of_lt hy)
  rw [total_band0 (by norm_num : (0 : ℚ) ≤ 150000)] at h0
  norm_num at h0
  linarith

/-- C19 witness: incomes 400000 ≤ 2500000 spanning three thresholds: the tax rises
from 25000 to 485000, at most 0.35 * 2100000 = 735000, and 485000 < 2500000. -/
theorem C19_marginal_rate_bounded_witness :
    (400000 : ℚ) ≤ 2500000
      ∧ calculateTotalTax 2500000 - calculateTotalTax 400000 ≤ 0.35 * (2500000 - 400000)
      ∧ (0 : ℚ) < 2500000
      ∧ calculateTotalTax 2500000 < 2500000 := by
  have h := C19_marginal_rate_bounded 400000 2500000 (by norm_num)
  exact ⟨by norm_num, h.1, by norm_num, h.2.2.2 (by norm_num)⟩

/-! ## Netted brackets against the net total: claims C15 and C20 -/

theorem sumTax_netted_five (T w a b c d : ℚ) (l0 l1 l2 l3 l4 : String) :
    sumTax (netWithholding T [⟨l0, 0⟩, ⟨l1, a⟩, ⟨l2, b⟩, ⟨l3, c⟩, ⟨l4, d⟩] w).TaxLevels
      = max 0 (0 - w) + max 0 (a - w) + max 0 (b - w) + max 0 (c - w) + max 0 (d - w) := by
  simp only [sumTax, netWithholding, List.map_cons, List.map_nil, List.sum_cons, List.sum_nil,
    netBracket_tax]
  ring

theorem netted_sum_eq_iff {a b c d w : ℚ} (ha : 0 < a) (hb : 0 < b) (hc : 0 ≤ c) (hd : 0 ≤ d)
    (hw : 0 < w) :
    max 0 (0 - w) + max 0 (a - w) + max 0 (b - w) + max 0 (c - w) + max 0 (d - w)
        = a + b + c + d - w ↔ w = a + b + c + d := by
  rw [max_eq_left (by linarith : 0 - w ≤ 0)]
  rcases le_total (a - w) 0 with h1 | h1 <;> rcases le_total (b - w) 0 with h2 | h2 <;>
  rcases le_total (c - w) 0 with h3 | h3 <;> rcases le_total (d - w) 0 with h4 | h4 <;>
  simp only [max_eq_left, max_eq_right, h1, h2, h3, h4] <;>
  constructor <;> intro h <;> linarith

theorem netted_sum_le {a b c d w : ℚ} (ha : 0 ≤ a) (hb : 0 ≤ b) (hc : 0 ≤ c) (hd : 0 ≤ d)
    (hw : 0 ≤ w) :
    max 0 (0 - w) + max 0 (a - w) + max 0 (b - w) + max 0 (c - w) + max 0 (d - w)
        ≤ max 0 (a + b + c + d - w) := by
  rw [max_eq_left (by linarith : 0 - w ≤ 0)]
  rcases le_total (a - w) 0 with h1 | h1 <;> rcases le_total (b - w) 0 with h2 | h2 <;>
  rcases le_total (c - w) 0 with h3 | h3 <;> rcases le_total (d - w) 0 with h4 | h4 <;>
  rcases le_total (a + b + c + d - w) 0 with h5 | h5 <;>
  simp only [max_eq_left, max_eq_right, h1, h2, h3, h4, h5] <;>
  linarith

theorem clamp_nonneg (v : ℚ) {hi : ℚ} (hh : 0 ≤ hi) : 0 ≤ clamp v 0 hi := by
  unfold clamp
  exact le_min (le_max_right v 0) hh

theorem nonzeroBrackets_band0 {x : ℚ} (h : x ≤ 150000) :
    nonzeroBrackets (calculateTaxBrackets x) = 0 := by
  rw [brackets_band0 h]
  simp [nonzeroBrackets, initialBrackets]

theorem nonzeroBrackets_band1 {x : ℚ} (h : 150000 < x) (h2 : x ≤ 500000) :
    nonzeroBrackets (calculateTaxBrackets x) = 1 := by
  rw [brackets_band1 h h2]
  have hne : x - 150000 ≠ 0 := by intro c; linarith
  have hr : (0.1 : ℚ) ≠ 0 := by norm_num
  simp [nonzeroBrackets, List.countP_cons, hne, hr]

theorem netted_eq_iff_of_two_nonzero (x w : ℚ) (hw : 0 < w)
    (h : 1 < nonzeroBrackets (calculateTaxBrackets x)) :
    sumTax (netWithholding (calculateTotalTax x) (calculateTaxBrackets x) w).TaxLevels
        = (netWithholding (calculateTotalTax x) (calculateTaxBrackets x) w).Tax
      ↔ w = calculateTotalTax x := by
  rcases income_cases x with hx | ⟨hx, hx2⟩ | ⟨hx, hx2⟩ | ⟨hx, hx2⟩ | hx
  · rw [nonzeroBrackets_band0 hx] at h
    exact absurd h (by decide)
  · rw [nonzeroBrackets_band1 hx hx2] at h
    exact absurd h (by decide)
  · have key := @netted_sum_eq_iff 35000 ((x - 500000) * 0.15) 0 0 w (by norm_num)
      (mul_pos (by linarith) (by norm_num)) le_rfl le_rfl hw
    rw [brackets_band2 hx hx2, total_band2 hx hx2, sumTax_netted_five]
    change _ = (x - 500000) * 0.15 + 35000 - w ↔ _
    rw [show (x - 500000) * 0.15 + 35000 = 35000 + (x - 500000) * 0.15 + 0 + 0 by ring]
    exact key
  · have key := @netted_sum_eq_iff 35000 75000 ((x - 1000000) * 0.2) 0 w (by norm_num)
      (by norm_num) (le_of_lt (mul_pos (by linarith) (by norm_num))) le_rfl hw
    rw [brackets_band3 hx hx2, total_band3 hx hx2, sumTax_netted_five]
    change _ = (x - 1000000) * 0.2 + 110000 - w ↔ _
    rw [show (x - 1000000) * 0.2 + 110000 = 35000 + 75000 + (x - 1000000) * 0.2 + 0 by ring]
    exact key
  · have key := @netted_sum_eq_iff 35000 75000 200000 ((x - 2000000) * 0.35) w (by norm_num)
      (by norm_num) (by norm_num) (le_of_lt (mul_pos (by linarith) (by norm_num))) hw
    rw [brackets_band4 hx, total_band4 hx, sumTax_netted_five]
    change _ = (x - 2000000) * 0.35 + 310000 - w ↔ _
    rw [show (x - 2000000) * 0.35 + 310000 = 35000 + 75000 + 200000 + (x - 2000000) * 0.35
      by ring]
    exact key

theorem nonzeroBrackets_million : nonzeroBrackets (calculateTaxBrackets 1000000) = 2 := by
  rw [brackets_band2 (by norm_num) (by norm_num)]
  simp [nonzeroBrackets, List.countP_cons]
  norm_num

/-- C15 (as stated, refuted): taxable income 1000000 has two brackets with nonzero
tax (35000 and 75000); with withholding 110000 > 0 every netted bracket is 0 and
the net total is 110000 - 110000 = 0, so the netted sum equals the net total, in
exact arithmetic and in binary64 alike; in binary64 the same happens with
withholding 1e-12, which the subtractions absorb (netted brackets 35000 and 75000,
net total 110000). -/
theorem C15_equal_at_full_withholding :
    ¬ ((0 : ℚ) < 110000 → 1 < nonzeroBrackets (calculateTaxBrackets 1000000) →
        sumTax (netWithholding (calculateTotalTax 1000000) (calculateTaxBrackets 1000000)
            110000).TaxLevels
          ≠ (netWithholding (calculateTotalTax 1000000) (calculateTaxBrackets 1000000)
            110000).Tax)
      ∧ ¬ ((0 : ℚ) < 110000 → 1 < nonzeroBrackets (calculateTaxBrackets64 1000000) →
        sumTax (netWithholding64 (calculateTotalTax64 1000000) (calculateTaxBrackets64 1000000)
            110000).TaxLevels
          ≠ (netWithholding64 (calculateTotalTax64 1000000) (calculateTaxBrackets64 1000000)
            110000).Tax)
      ∧ ¬ ((0 : ℚ) < round64 (1 / 1000000000000) →
        1 < nonzeroBrackets (calculateTaxBrackets64 1000000) →
        sumTax (netWithholding64 (calculateTotalTax64 1000000) (calculateTaxBrackets64 1000000)
            (round64 (1 / 1000000000000))).TaxLevels
          ≠ (netWithholding64 (calculateTotalTax64 1000000) (calculateTaxBrackets64 1000000)
            (round64 (1 / 1000000000000))).Tax)
      ∧ round64 (1 / 1000000000000) ≠ calculateTotalTax64 1000000 := by
  refine ⟨?_, ?_, ?_, by decide!⟩
  · intro hclaim
    refine hclaim (by norm_num) (by rw [nonzeroBrackets_million]; decide) ?_
    rw [brackets_band2 (by norm_num) (by norm_num), total_band2 (by norm_num) (by norm_num),
      sumTax_netted_five]
    change _ = (1000000 - 500000) * 0.15 + 35000 - (110000 : ℚ)
    norm_num
  · intro hclaim
    exact hclaim (by norm_num) (by decide!) (by decide!)
  · intro hclaim
    exact hclaim (by decide!) (by decide!) (by decide!)

/-- C15 (amended): over exact rational arithmetic, for every taxable income x and
withholding w > 0, when more than one bracket of `calculateTaxBrackets x` has
nonzero tax, the sum of the netted bracket taxes max(0, tax_i - w) equals the net
total calculateTotalTax(x) - w if and only if w = calculateTotalTax(x); so for every
w other than the total tax the two differ.  (In binary64 a withholding small enough
to be absorbed by the subtractions also gives equality.) -/
theorem C15_netting_nonadditive (x w : ℚ) (hw : 0 < w)
    (h : 1 < nonzeroBrackets (calculateTaxBrackets x)) :
    (sumTax (netWithholding (calculateTotalTax x) (calculateTaxBrackets x) w).TaxLevels
        = (netWithholding (calculateTotalTax x) (calculateTaxBrackets x) w).Tax
      ↔ w = calculateTotalTax x)
      ∧ (w ≠ calculateTotalTax x →
        sumTax (netWithholding (calculateTotalTax x) (calculateTaxBrackets x) w).TaxLevels
          ≠ (netWithholding (calculateTotalTax x) (calculateTaxBrackets x) w).Tax) := by
  have key := netted_eq_iff_of_two_nonzero x w hw h
  exact ⟨key, fun hne heq => hne (key.1 heq)⟩

/-- C15 witness: taxable income 1000000 (total 110000, brackets 35000 and 75000) with
withholding 25000: the netted brackets sum to 60000, the net total is 85000. -/
theorem C15_netting_nonadditive_witness :
    (0 : ℚ) < 25000
      ∧ 1 < nonzeroBrackets (calculateTaxBrackets 1000000)
      ∧ (25000 : ℚ) ≠ calculateTotalTax 1000000
      ∧ sumTax (netWithholding (calculateTotalTax 1000000) (calculateTaxBrackets 1000000)
            25000).TaxLevels
          ≠ (netWithholding (calculateTotalTax 1000000) (calculateTaxBrackets 1000000)
            25000).Tax := by
  have hc : 1 < nonzeroBrackets (calculateTaxBrackets 1000000) := by
    rw [nonzeroBrackets_million]
    decide
  have hn : (25000 : ℚ) ≠ calculateTotalTax 1000000 := by
    rw [total_band2 (by norm_num) (by norm_num)]
    norm_num
  exact ⟨by norm_num, hc, hn,
    (C15_netting_nonadditive 1000000 25000 (by norm_num) hc).2 hn⟩

/-- C20 (amended): over exact rational arithmetic, the netted per-bracket figures
never overstate the net liability: for every taxable income x and withholding
w ≥ 0, the sum over the brackets of `calculateTaxBrackets x` of max(0, tax_i - w) is
at most max(0, calculateTotalTax(x) - w), with equality when w = 0; the binary64 run
can exceed the bound in the last bits. -/
theorem C20_netted_sum_le_net_liability (x w : ℚ) (hw : 0 ≤ w) :
    sumTax (netWithholding (calculateTotalTax x) (calculateTaxBrackets x) w).TaxLevels
        ≤ max 0 (calculateTotalTax x - w)
      ∧ sumTax (netWithholding (calculateTotalTax x) (calculateTaxBrackets x) 0).TaxLevels
        = max 0 (calculateTotalTax x - 0) := by
  have h1 : (0 : ℚ) ≤ 0.1 * clamp (x - 150000) 0 350000 :=
    mul_nonneg (by norm_num) (clamp_nonneg _ (by norm_num))
  have h2 : (0 : ℚ) ≤ 0.15 * clamp (x - 500000) 0 500000 :=
    mul_nonneg (by norm_num) (clamp_nonneg _ (by norm_num))
  have h3 : (0 : ℚ) ≤ 0.2 * clamp (x - 1000000) 0 1000000 :=
    mul_nonneg (by norm_num) (clamp_nonneg _ (by norm_num))
  have h4 : (0 : ℚ) ≤ 0.35 * max 0 (x - 2000000) :=
    mul_nonneg (by norm_num) (le_max_left _ _)
  rw [calculateTaxBrackets_closed x, calculateTotalTax_closed x, sumTax_netted_five,
    sumTax_netted_five]
  generalize 0.1 * clamp (x - 150000) 0 350000 = a at h1 ⊢
  generalize 0.15 * clamp (x - 500000) 0 500000 = b at h2 ⊢
  generalize 0.2 * clamp (x - 1000000) 0 1000000 = c at h3 ⊢
  generalize 0.35 * max 0 (x - 2000000) = d at h4 ⊢
  refine ⟨netted_sum_le h1 h2 h3 h4 hw, ?_⟩
  have hs : (0 : ℚ) ≤ a + b + c + d := by linarith
  simp only [sub_zero, max_eq_right h1, max_eq_right h2, max_eq_right h3, max_eq_right h4,
    max_eq_right hs, max_self]
  ring

/-- C20 witness: taxable income 1000000 with withholding 25000: netted sum 60000 is at
most max(0, 110000 - 25000) = 85000. -/
theorem C20_netted_sum_le_net_liability_witness :
    (0 : ℚ) ≤ 25000
      ∧ sumTax (netWithholding (calculateTotalTax 1000000) (calculateTaxBrackets 1000000)
            25000).TaxLevels
          ≤ max 0 (calculateTotalTax 1000000 - 25000) :=
  ⟨by norm_num, (C20_netted_sum_le_net_liability 1000000 25000 (by norm_num)).1⟩

/-! ## Binary64 evaluation at concrete incomes -/

/-- The constants of main.go and the decoded inputs used below, as binary64 values:
0.35 = 3152519739159347 / 2^53, 2000000.07 decodes to 8589934892647711 / 2^32,
2000000.03 to 8589934720849019 / 2^32 and 1e-12 to 4951760157141521 / 2^92. -/
theorem round64_values :
    round64 0.35 = 3152519739159347 / 9007199254740992
      ∧ round64 (200000007 / 100) = 8589934892647711 / 4294967296
      ∧ round64 (200000003 / 100) = 8589934720849019 / 4294967296
      ∧ round64 (1 / 1000000000000) = 4951760157141521 / 4951760157141521099596496896
      ∧ round64 1000000 = 1000000 := by
  decide!

/-- C3 (as stated, refuted on binary64): at taxable income 2000000.07 the code
returns total 1331439966986699 / 2^32 (310000.02450000006...) and brackets 0, 35000,
75000, 200000, 3530822111146803 / 2^57 (0.0245000000228...), whose sum, taken
exactly or in binary64, is not the total. -/
theorem C3_float64_counterexample :
    calculateTotalTax64 (round64 (200000007 / 100)) = 1331439966986699 / 4294967296
      ∧ (calculateTaxBrackets64 (round64 (200000007 / 100))).map TaxBracket.Tax
          = [0, 35000, 75000, 200000, 3530822111146803 / 144115188075855872]
      ∧ calculateTotalTax64 (round64 (200000007 / 100))
          ≠ sumTax (calculateTaxBrackets64 (round64 (200000007 / 100)))
      ∧ calculateTotalTax64 (round64 (200000007 / 100))
          ≠ sumTax64 (calculateTaxBrackets64 (round64 (200000007 / 100))) := by
  decide!

/-- C20 (as stated, refuted on binary64): at taxable income 2000000.03 with
withholding 0 the code returns total 2662879813714313 / 2^33 (310000.0105) and
netted brackets 0, 35000, 75000, 200000, 6052837904823091 / 2^59, whose sum, taken
exactly or in binary64, exceeds max(0, total - 0). -/
theorem C20_float64_counterexample :
    calculateTotalTax64 (round64 (200000003 / 100)) = 2662879813714313 / 8589934592
      ∧ (netWithholding64 (calculateTotalTax64 (round64 (200000003 / 100)))
          (calculateTaxBrackets64 (round64 (200000003 / 100))) 0).TaxLevels.map TaxBracket.Tax
          = [0, 35000, 75000, 200000, 6052837904823091 / 576460752303423488]
      ∧ ¬ (sumTax (netWithholding64 (calculateTotalTax64 (round64 (200000003 / 100)))
            (calculateTaxBrackets64 (round64 (200000003 / 100))) 0).TaxLevels
          ≤ max 0 (sub64 (calculateTotalTax64 (round64 (200000003 / 100))) 0))
      ∧ ¬ (sumTax64 (netWithholding64 (calculateTotalTax64 (round64 (200000003 / 100)))
            (calculateTaxBrackets64 (round64 (200000003 / 100))) 0).TaxLevels
          ≤ max 0 (sub64 (calculateTotalTax64 (round64 (200000003 / 100))) 0)) := by
  decide!

end TaxEngine
